import Mathlib

/-!
# Verification of the adaptive orbital-waves rendering pipeline

Shallow embedding of the core logic of the repository:
* the device tier classifier (`src/hooks/usePerformanceTier.ts`),
* the runtime quality governor (`src/components/canvas/Background3D.tsx`),
* the wave-lifecycle / shared-refraction-buffer state machine
  (`src/components/canvas/OrbitalWaves.tsx`),
* the GPU compute path and its CPU fallback
  (`src/components/canvas/gpu/orbitCompute.ts`),
* the layout-preset variant's manual-trigger lock (unnamed variant source).

JavaScript numbers are modelled as `ℚ`; `Number.NEGATIVE_INFINITY` sentinels
are modelled as `Option ℚ` with `none` playing the role of `-∞`.
-/

namespace Vantage

/-! ## Device tier classifier (src/src/hooks/usePerformanceTier.ts) -/

inductive PerformanceTier
  | low
  | medium
  | high
  deriving DecidableEq, Repr

/-- The device signals read by the classifier.  The user-agent regular
expression test and the touch/pointer media query are modelled as the boolean
outcome of those tests; `hardwareConcurrency` is `none` when the property is
absent (and JS `|| 4` also treats a reported `0` as absent). -/
structure DeviceSignals where
  hasWindow : Bool
  uaMobileMatch : Bool
  touchWithoutFinePointer : Bool
  hardwareConcurrency : Option Nat
  deviceMemory : Option ℚ
  deriving DecidableEq, Repr

/-- `detectIsMobile` from usePerformanceTier.ts (lines 77-89). -/
def detectIsMobile (s : DeviceSignals) : Bool :=
  if !s.hasWindow then false
  else if s.uaMobileMatch then true
  else if s.touchWithoutFinePointer then true
  else false

/-- `navigator.hardwareConcurrency || 4`: absent or zero falls back to 4. -/
def effectiveCores (s : DeviceSignals) : Nat :=
  match s.hardwareConcurrency with
  | none => 4
  | some 0 => 4
  | some c => c

/-- `memory !== undefined && memory <= 4`. -/
def memoryAtMost4 (s : DeviceSignals) : Bool :=
  match s.deviceMemory with
  | none => false
  | some m => decide (m ≤ 4)

/-- `memory === undefined || memory >= 8`. -/
def memoryAtLeast8OrUnknown (s : DeviceSignals) : Bool :=
  match s.deviceMemory with
  | none => true
  | some m => decide (8 ≤ m)

/-- `detectPerformanceTier` from usePerformanceTier.ts (lines 94-123). -/
def detectPerformanceTier (s : DeviceSignals) : PerformanceTier :=
  if !s.hasWindow then .medium
  else if detectIsMobile s then
    if effectiveCores s ≤ 4 || memoryAtMost4 s then .low else .medium
  else if 8 ≤ effectiveCores s && memoryAtLeast8OrUnknown s then .high
  else if effectiveCores s ≤ 4 || memoryAtMost4 s then .low
  else .medium

/-- The tier-dependent capability profile (`buildConfig`), restricted to the
fields the adaptive logic reads. -/
structure PerformanceConfig where
  tier : PerformanceTier
  maxDpr : ℚ
  orbitSegments : Nat
  transmissionResolution : Nat
  transmissionSamples : Nat
  maxWaves : Nat
  deriving DecidableEq, Repr

/-- `buildConfig` from usePerformanceTier.ts (lines 128-197). -/
def buildConfig : PerformanceTier → PerformanceConfig
  | .high =>
    { tier := .high, maxDpr := 2, orbitSegments := 128,
      transmissionResolution := 256, transmissionSamples := 6, maxWaves := 5 }
  | .medium =>
    { tier := .medium, maxDpr := 3/2, orbitSegments := 48,
      transmissionResolution := 128, transmissionSamples := 4, maxWaves := 3 }
  | .low =>
    { tier := .low, maxDpr := 1, orbitSegments := 48,
      transmissionResolution := 64, transmissionSamples := 2, maxWaves := 2 }

end Vantage

namespace Vantage

/-! ## Runtime quality governor (src/src/components/canvas/Background3D.tsx) -/

def QUALITY_DROP_COOLDOWN_MS : ℚ := 900
def QUALITY_RISE_COOLDOWN_MS : ℚ := 3200
def DPR_DROP_COOLDOWN_MS : ℚ := 800
def DPR_RISE_COOLDOWN_MS : ℚ := 1500
def DPR_MIN_DELTA_TO_APPLY : ℚ := 1/10
def STARTUP_QUALITY_RISE_DELAY_MS : ℚ := 6000

/-- `tierToMaxQuality` (Background3D.tsx lines 26-35). -/
def tierToMaxQuality : PerformanceTier → Nat
  | .high => 2
  | .medium => 1
  | .low => 0

/-- `tierToMinDpr` (Background3D.tsx lines 37-41). -/
def tierToMinDpr : PerformanceTier → ℚ
  | .high => 3/2
  | .medium => 1
  | .low => 3/4

/-- `tierToMidQuality` (Background3D.tsx lines 43-45). -/
def tierToMidQuality (maxQuality : Nat) : Nat :=
  if maxQuality = 2 then 1 else maxQuality

/-- `tierToMinQuality` (Background3D.tsx lines 47-49). -/
def tierToMinQuality : PerformanceTier → Nat
  | .low => 0
  | _ => 1

/-- `Math.round((minDpr + (perf.maxDpr - minDpr) * factor) * 4) / 4`
(JS `Math.round` is round-half-up, which is `round` on `ℚ`). -/
def nextDpr (minDpr maxDpr factor : ℚ) : ℚ :=
  ((round ((minDpr + (maxDpr - minDpr) * factor) * 4) : ℤ) : ℚ) / 4

/-- `Math.max(minDpr, Math.min(perf.maxDpr, nextDpr))`. -/
def clampedDpr (minDpr maxDpr factor : ℚ) : ℚ :=
  max minDpr (min maxDpr (nextDpr minDpr maxDpr factor))

/-- The quality target computed from the factor thresholds
(Background3D.tsx lines 97-104). -/
def targetQualityOf (maxQuality minQuality : Nat) (factor : ℚ) : Nat :=
  let highQualityThreshold : ℚ := if maxQuality = 2 then 72/100 else 8/10
  let midQualityThreshold : ℚ := if maxQuality = 2 then 1/2 else 58/100
  if highQualityThreshold ≤ factor then maxQuality
  else if midQualityThreshold ≤ factor then tierToMidQuality maxQuality
  else minQuality

/-- Governor state: the refs of `Background3D`.  `none` in a timestamp field
models `Number.NEGATIVE_INFINITY`. -/
structure GovState where
  dpr : ℚ
  quality : Nat
  lastQualityChange : Option ℚ
  lastDprChange : Option ℚ
  resumeGraceUntil : ℚ
  allowQualityRiseAt : ℚ
  deriving DecidableEq, Repr

/-- `now - last < cooldown`, where `last = -∞` makes the difference `+∞`. -/
def withinCooldown (last : Option ℚ) (now cooldown : ℚ) : Bool :=
  match last with
  | none => false
  | some t => decide (now - t < cooldown)

/-- One governor sample: the `PerformanceMonitor` callback argument together
with the wall-clock time and visibility at delivery. -/
structure GovSample where
  now : ℚ
  factor : ℚ
  visible : Bool
  deriving DecidableEq, Repr

/-- The `setDpr` functional update of `handlePerformanceChange`
(Background3D.tsx lines 83-95). -/
def applyDprUpdate (perf : PerformanceConfig) (st : GovState)
    (s : GovSample) : GovState :=
  let clamped := clampedDpr (tierToMinDpr perf.tier) perf.maxDpr s.factor
  let delta := clamped - st.dpr
  if |delta| < DPR_MIN_DELTA_TO_APPLY then st
  else
    let cooldown :=
      if delta < 0 then DPR_DROP_COOLDOWN_MS else DPR_RISE_COOLDOWN_MS
    if withinCooldown st.lastDprChange s.now cooldown then st
    else { st with dpr := clamped, lastDprChange := some s.now }

/-- The quality transition of `handlePerformanceChange`
(Background3D.tsx lines 97-117). -/
def applyQualityUpdate (perf : PerformanceConfig) (st : GovState)
    (s : GovSample) : GovState :=
  let targetQuality :=
    targetQualityOf (tierToMaxQuality perf.tier) (tierToMinQuality perf.tier)
      s.factor
  if targetQuality = st.quality then st
  else if st.quality < targetQuality ∧ s.now < st.allowQualityRiseAt then st
  else
    let cooldown :=
      if targetQuality < st.quality then QUALITY_DROP_COOLDOWN_MS
      else QUALITY_RISE_COOLDOWN_MS
    if withinCooldown st.lastQualityChange s.now cooldown then st
    else { st with quality := targetQuality, lastQualityChange := some s.now }

/-- `handlePerformanceChange` (Background3D.tsx lines 77-120): the
visibility and resume-grace guards, then the DPR update followed by the
quality transition (the source's early `return`s cut only the quality part,
after `setDpr` has already run). -/
def handlePerformanceChange (perf : PerformanceConfig) (st : GovState)
    (s : GovSample) : GovState :=
  if !s.visible then st
  else if s.now < st.resumeGraceUntil then st
  else applyQualityUpdate perf (applyDprUpdate perf st s) s

/-- The moderate baseline DPR
`Math.min(perf.maxDpr, Math.max(perf.tier === 'high' ? 1.5 : 1, minDpr))`. -/
def restoredDpr (perf : PerformanceConfig) : ℚ :=
  min perf.maxDpr (max (if perf.tier = .high then 3/2 else 1) (tierToMinDpr perf.tier))

/-- `restoreVisualState` (Background3D.tsx lines 135-150), guarded by the
document being visible. -/
def restoreVisualState (perf : PerformanceConfig) (visible : Bool) (now : ℚ)
    (st : GovState) : GovState :=
  if !visible then st
  else
    { dpr := restoredDpr perf
      quality := tierToMidQuality (tierToMaxQuality perf.tier)
      lastQualityChange := none
      lastDprChange := none
      resumeGraceUntil := now + 1200
      allowQualityRiseAt := now + STARTUP_QUALITY_RISE_DELAY_MS }

/-- The governor state right after mount (initial `useState` values plus the
mount `useEffect` of Background3D.tsx lines 60-75). -/
def initialGovState (perf : PerformanceConfig) (mountNow : ℚ) : GovState :=
  { dpr := restoredDpr perf
    quality := tierToMidQuality (tierToMaxQuality perf.tier)
    lastQualityChange := none
    lastDprChange := none
    resumeGraceUntil := mountNow + 800
    allowQualityRiseAt := mountNow + STARTUP_QUALITY_RISE_DELAY_MS }

/-- Governor trace: state after processing the first `n` samples of the
stream `f`. -/
def govRun (perf : PerformanceConfig) (init : GovState) (f : ℕ → GovSample) :
    ℕ → GovState
  | 0 => init
  | n + 1 => handlePerformanceChange perf (govRun perf init f n) (f n)

end Vantage

namespace Vantage

/-! ## Wave lifecycle and shared refraction buffer
(src/src/components/canvas/OrbitalWaves.tsx) -/

def INTRO_DURATION : ℚ := 6

/-- One slot of the fixed wave pool (`WaveData`). -/
structure WaveData where
  id : Nat
  active : Bool
  startTime : ℚ
  orbitIndex : Nat
  deriving DecidableEq, Repr

/-- The mutable refs of `OrbitalWaves` that the wave/buffer logic touches.
`lastActiveWaveId` models `lastActiveWaveRef` (the code tracks the wave
object; only its `id` is ever consulted).  `capturedTransmissionCacheVersion`
starts at `-1`, hence `ℤ`. -/
structure WavesState where
  quality : Nat
  waves : List WaveData
  activeWavesCount : Nat
  lastOrbitIndex : ℤ
  lastActiveWaveId : Option Nat
  transmissionCacheVersion : Nat
  hasCachedTransmissionFrame : Bool
  capturedTransmissionCacheVersion : ℤ
  triggerQueue : Bool
  hasFiredIntroWave : Bool
  deriving DecidableEq, Repr

/-- `maxActiveWaves` (OrbitalWaves.tsx lines 429-433); `perf.maxWaves - 1`
under `Math.max` coincides with truncated subtraction. -/
def maxActiveWaves (maxWaves quality : Nat) : Nat :=
  if quality = 2 then maxWaves
  else if quality = 1 then max 2 (maxWaves - 1)
  else max 1 (maxWaves - 2)

/-- The number of slots whose `active` flag is set. -/
def countActive (st : WavesState) : Nat :=
  st.waves.countP (fun w => w.active)

/-- `Math.floor(Math.random() * k)` for an oracle draw `r`: some value in
`[0, k)` (and `0` when `k = 0`). -/
def randFloor (r k : Nat) : Nat :=
  if k = 0 then 0 else r % k

/-- The oracle for the random draws one `triggerWaveAction` call may make. -/
structure TriggerRand where
  cands : List Nat
  fallback : Nat
  deriving DecidableEq, Repr

/-- The free-slot scan: first inactive index among the first `limit` slots. -/
def findAvailableWaveIndex (waves : List WaveData) (limit : Nat) : Option Nat :=
  (waves.take limit).findIdx? (fun w => !w.active)

/-- `isBusyOrbit` (OrbitalWaves.tsx lines 496-502). -/
def isBusyOrbit (waves : List WaveData) (limit orbitIndex : Nat) : Bool :=
  (waves.take limit).any (fun w => w.active && w.orbitIndex == orbitIndex)

/-- The bounded random retry loop for orbit selection
(OrbitalWaves.tsx lines 504-512). -/
def selectOrbitRandom (waves : List WaveData) (limit orbitCount : Nat)
    (prev : ℤ) (cands : List Nat) : Option Nat :=
  cands.findSome? fun c =>
    let candidate := randFloor c orbitCount
    if (candidate : ℤ) = prev then none
    else if isBusyOrbit waves limit candidate then none
    else some candidate

/-- The deterministic fallback scan (OrbitalWaves.tsx lines 514-521). -/
def selectOrbitScan (waves : List WaveData) (limit orbitCount : Nat)
    (prev : ℤ) : Option Nat :=
  (List.range orbitCount).find? fun i =>
    !((i : ℤ) == prev) && !isBusyOrbit waves limit i

/-- The modular-offset last resort (OrbitalWaves.tsx lines 523-530). -/
def selectOrbitFallback (orbitCount : Nat) (prev : ℤ) (r : Nat) : Nat :=
  if 1 < orbitCount ∧ 0 ≤ prev then
    (prev.toNat + 1 + randFloor r (orbitCount - 1)) % orbitCount
  else randFloor r orbitCount

/-- The orbit-selection chain of `triggerWaveAction` (OrbitalWaves.tsx lines
504-530): bounded random retries, then the deterministic scan, then the
modular-offset last resort. -/
def selectNextOrbit (waves : List WaveData) (limit orbitCount : Nat)
    (prev : ℤ) (rand : TriggerRand) : Nat :=
  match selectOrbitRandom waves limit orbitCount prev
      (rand.cands.take (max (orbitCount * 2) 8)) with
  | some c => c
  | none =>
    match selectOrbitScan waves limit orbitCount prev with
    | some c => c
    | none => selectOrbitFallback orbitCount prev rand.fallback

/-- `triggerWaveAction` (OrbitalWaves.tsx lines 477-551; the variant source
returns the boolean, the main source discards it).  Returns the new state and
whether a slot was activated. -/
def triggerWaveAction (cap : Nat) (now : ℚ) (rand : TriggerRand)
    (orbitCount : Nat) (st : WavesState) : WavesState × Bool :=
  let waves := st.waves
  let activationLimit := min cap waves.length
  let hadActiveWaves := 0 < st.activeWavesCount
  match findAvailableWaveIndex waves activationLimit with
  | none => (st, false)
  | some availableWaveIndex =>
    let nextOrbitIndex :=
      selectNextOrbit waves activationLimit orbitCount st.lastOrbitIndex rand
    let st1 := { st with lastOrbitIndex := (nextOrbitIndex : ℤ) }
    match waves.get? availableWaveIndex with
    | none => (st1, false)
    | some nextWave =>
      if nextWave.active then (st1, false)
      else
        ({ st1 with
            waves := waves.set availableWaveIndex
              { nextWave with
                  active := true
                  startTime := now
                  orbitIndex := nextOrbitIndex }
            activeWavesCount := st.activeWavesCount + 1
            lastActiveWaveId := some nextWave.id
            transmissionCacheVersion :=
              if hadActiveWaves then st.transmissionCacheVersion
              else st.transmissionCacheVersion + 1
            hasCachedTransmissionFrame :=
              if hadActiveWaves then st.hasCachedTransmissionFrame
              else false },
          true)

/-- `handleWaveComplete` (OrbitalWaves.tsx lines 761-774):
`Math.max(0, c - 1)` coincides with truncated subtraction. -/
def handleWaveComplete (id : Nat) (st : WavesState) : WavesState :=
  match st.waves.findIdx? (fun w => w.id == id) with
  | none => st
  | some i =>
    match st.waves.get? i with
    | none => st
    | some w =>
      if w.active then
        { st with
            waves := st.waves.set i { w with active := false }
            activeWavesCount := st.activeWavesCount - 1
            lastActiveWaveId :=
              if st.lastActiveWaveId = some id then none
              else st.lastActiveWaveId }
      else st

/-- The `useEffect` on `maxActiveWaves` (OrbitalWaves.tsx lines 454-475):
deactivate every active slot at index `≥ cap` and recount. -/
def applyMaxActiveWavesEffect (cap : Nat) (st : WavesState) : WavesState :=
  let waves' := st.waves.mapIdx fun i w =>
    if cap ≤ i && w.active then { w with active := false } else w
  let lastActive' :=
    match st.lastActiveWaveId with
    | none => none
    | some lid =>
      if st.waves.enum.any (fun p => cap ≤ p.1 && p.2.active && p.2.id == lid)
      then none else some lid
  { st with
      waves := waves'
      activeWavesCount := waves'.countP (fun w => w.active)
      lastActiveWaveId := lastActive' }

/-- The `useEffect` on quality / transmission resolution / samples
(OrbitalWaves.tsx lines 323-326). -/
def qualityCacheEffect (st : WavesState) : WavesState :=
  { st with
      transmissionCacheVersion := st.transmissionCacheVersion + 1
      hasCachedTransmissionFrame := false }

/-- The `visibilitychange` listener (OrbitalWaves.tsx lines 562-571). -/
def handleVisibilityChange (visible : Bool) (st : WavesState) : WavesState :=
  if !visible then st
  else
    { st with
        transmissionCacheVersion := st.transmissionCacheVersion + 1
        hasCachedTransmissionFrame := false }

/-- The shared-buffer capture/skip decision of the per-frame callback
(OrbitalWaves.tsx lines 658-693). -/
def frameCapture (contextLost : Bool) (st : WavesState) : WavesState :=
  let hasActiveWaves := 0 < st.activeWavesCount
  if hasActiveWaves then
    let cacheVersionChanged :=
      st.capturedTransmissionCacheVersion ≠ (st.transmissionCacheVersion : ℤ)
    if !st.hasCachedTransmissionFrame ∨ cacheVersionChanged then
      if !contextLost then
        { st with
            hasCachedTransmissionFrame := true
            capturedTransmissionCacheVersion := (st.transmissionCacheVersion : ℤ) }
      else st
    else st
  else if st.hasCachedTransmissionFrame then
    { st with hasCachedTransmissionFrame := false }
  else st

/-- One event hitting the `OrbitalWaves` state.  A `frame` performs, in source
order: the capture decision, the one-shot trigger-queue drain, and the
once-only intro-wave firing; the two `TriggerRand` oracles feed the at most
two `triggerWaveAction` calls a frame can make. -/
inductive WaveEvent
  | pointerDown
  | frame (now : ℚ) (contextLost : Bool) (rand rand2 : TriggerRand)
  | complete (id : Nat)
  | qualityChange (q : Nat)
  | visibility (visible : Bool)

/-- The step function of the wave/buffer subsystem. -/
def waveStep (maxWaves orbitCount : Nat) (st : WavesState) :
    WaveEvent → WavesState
  | .pointerDown => { st with triggerQueue := true }
  | .complete id => handleWaveComplete id st
  | .qualityChange q =>
      applyMaxActiveWavesEffect (maxActiveWaves maxWaves q)
        (qualityCacheEffect { st with quality := q })
  | .visibility v => handleVisibilityChange v st
  | .frame now contextLost rand rand2 =>
      let cap := maxActiveWaves maxWaves st.quality
      let st1 := frameCapture contextLost st
      let st2 :=
        if st1.triggerQueue then
          (triggerWaveAction cap now rand orbitCount
            { st1 with triggerQueue := false }).1
        else st1
      if INTRO_DURATION < now ∧ st2.hasFiredIntroWave = false then
        (triggerWaveAction cap now rand2 orbitCount
          { st2 with hasFiredIntroWave := true }).1
      else st2

/-- The pool and refs right after mount (OrbitalWaves.tsx lines 252-261,
435-442). -/
def initWavesState (maxWaves quality : Nat) : WavesState :=
  { quality := quality
    waves := (List.range maxWaves).map fun i =>
      { id := i, active := false, startTime := 0, orbitIndex := 0 }
    activeWavesCount := 0
    lastOrbitIndex := -1
    lastActiveWaveId := none
    transmissionCacheVersion := 0
    hasCachedTransmissionFrame := false
    capturedTransmissionCacheVersion := -1
    triggerQueue := false
    hasFiredIntroWave := false }

end Vantage

namespace Vantage

/-! ## Per-wave visual envelope (`ImpulseWave` useFrame,
OrbitalWaves.tsx lines 151-206) -/

/-- The behaviour fields of `defaultConfig.wave` that the per-frame material
update reads. -/
structure WaveBehaviorConfig where
  speed : ℚ
  maxScale : ℚ
  fadeInEnd : ℚ
  fadeOutStart : ℚ
  thickness : ℚ
  distortion : ℚ
  opacity : ℚ
  deriving DecidableEq, Repr

/-- `cycle = Math.min(Math.max(elapsed / duration, 0), 1)` with
`duration = 1 / waveSpeed`. -/
def waveCycle (speed now startTime : ℚ) : ℚ :=
  let elapsed := now - startTime
  let duration := 1 / speed
  min (max (elapsed / duration) 0) 1

/-- The three-segment intensity envelope (OrbitalWaves.tsx lines 194-201). -/
def waveIntensity (fadeInEnd fadeOutStart cycle : ℚ) : ℚ :=
  if cycle < fadeInEnd then cycle / fadeInEnd
  else if fadeOutStart < cycle then 1 - (cycle - fadeOutStart) / (1 - fadeOutStart)
  else 1

/-- What one `ImpulseWave` frame does to an active wave: whether
`onComplete` fired (deactivating the slot), the material scalars written, and
the scale applied (`none` on the completion path, which leaves it as is). -/
structure WaveFrameResult where
  completed : Bool
  opacity : ℚ
  distortion : ℚ
  thickness : ℚ
  scale : Option ℚ
  deriving DecidableEq, Repr

/-- The per-frame update of an active wave (OrbitalWaves.tsx lines 177-205);
`minScale = 1.5` is the literal in the source. -/
def impulseWaveFrame (cfg : WaveBehaviorConfig) (now startTime : ℚ) :
    WaveFrameResult :=
  let cycle := waveCycle cfg.speed now startTime
  if 1 ≤ cycle then
    { completed := true, opacity := 0, distortion := 0, thickness := 0,
      scale := none }
  else
    let minScale : ℚ := 3/2
    let intensity := waveIntensity cfg.fadeInEnd cfg.fadeOutStart cycle
    { completed := false
      opacity := intensity * cfg.opacity
      distortion := intensity * cfg.distortion
      thickness := intensity * cfg.thickness
      scale := some (minScale + cycle * (cfg.maxScale - minScale)) }

end Vantage

namespace Vantage

/-! ## GPU compute path and CPU fallback
(src/src/components/canvas/gpu/orbitCompute.ts) -/

/-- Per-orbit parameters (`OrbitGPUParams`). -/
structure OrbitGPUParams where
  radiusX : ℚ
  radiusZ : ℚ
  phaseOffset : ℚ
  deriving DecidableEq, Repr

/-- `GPUComputeConfig`.  Out-of-range orbit access is total via `getD`
(well-formed configs have `orbits.length = orbitCount`). -/
structure GPUComputeConfig where
  orbitCount : Nat
  segmentsPerOrbit : Nat
  orbits : List OrbitGPUParams
  deriving Repr

/-- Both execution paths evaluate the same trigonometric primitives
(`Math.cos`/`Math.sin` on the CPU, `std.cos`/`std.sin` in the shader) and the
same `TWO_PI` constant; the equivalence of the two paths is independent of
their values, so they are abstracted. -/
structure Trig where
  cosF : ℚ → ℚ
  sinF : ℚ → ℚ
  twoPi : ℚ

def defaultOrbitParams : OrbitGPUParams := { radiusX := 0, radiusZ := 0, phaseOffset := 0 }

/-- `computeOnCPU` (orbitCompute.ts lines 131-152): per orbit, a flat
`[x, y, z, ...]` buffer of `segmentsPerOrbit + 1` points. -/
def computeOnCPU (tri : Trig) (cfg : GPUComputeConfig) : List (List ℚ) :=
  (List.range cfg.orbitCount).map fun i =>
    let orbit := cfg.orbits.getD i defaultOrbitParams
    (List.range (cfg.segmentsPerOrbit + 1)).flatMap fun j =>
      let theta := ((j : ℚ) / (cfg.segmentsPerOrbit : ℚ)) * tri.twoPi + orbit.phaseOffset
      [tri.cosF theta * orbit.radiusX, 0, tri.sinF theta * orbit.radiusZ]

/-- The per-point input arrays the GPU path precomputes (orbitCompute.ts
lines 55-69).  The loops fill flat index `idx = i * pointsPerOrbit + j`, so
the array value at `idx` is recovered through division and remainder. -/
def gpuThetaAt (tri : Trig) (cfg : GPUComputeConfig) (idx : Nat) : ℚ :=
  let pointsPerOrbit := cfg.segmentsPerOrbit + 1
  let j := idx % pointsPerOrbit
  let orbit := cfg.orbits.getD (idx / pointsPerOrbit) defaultOrbitParams
  ((j : ℚ) / (cfg.segmentsPerOrbit : ℚ)) * tri.twoPi + orbit.phaseOffset

def gpuRadiusXAt (cfg : GPUComputeConfig) (idx : Nat) : ℚ :=
  (cfg.orbits.getD (idx / (cfg.segmentsPerOrbit + 1)) defaultOrbitParams).radiusX

def gpuRadiusZAt (cfg : GPUComputeConfig) (idx : Nat) : ℚ :=
  (cfg.orbits.getD (idx / (cfg.segmentsPerOrbit + 1)) defaultOrbitParams).radiusZ

/-- The flat output buffer written by the compute shader (orbitCompute.ts
lines 85-101): thread `idx` writes `[cos θ · rx, 0, sin θ · rz]` at offset
`idx * 3`. -/
def gpuFlatOutput (tri : Trig) (cfg : GPUComputeConfig) : List ℚ :=
  let totalPoints := cfg.orbitCount * (cfg.segmentsPerOrbit + 1)
  (List.range totalPoints).flatMap fun idx =>
    [tri.cosF (gpuThetaAt tri cfg idx) * gpuRadiusXAt cfg idx, 0,
     tri.sinF (gpuThetaAt tri cfg idx) * gpuRadiusZAt cfg idx]

/-- `computeOnGPU` (orbitCompute.ts lines 44-118): the flat readback is
sliced into per-orbit buffers via `slice(start, start + pointsPerOrbit * 3)`. -/
def computeOnGPU (tri : Trig) (cfg : GPUComputeConfig) : List (List ℚ) :=
  let pointsPerOrbit := cfg.segmentsPerOrbit + 1
  let flat := gpuFlatOutput tri cfg
  (List.range cfg.orbitCount).map fun i =>
    ((flat.drop (i * pointsPerOrbit * 3)).take (pointsPerOrbit * 3))

end Vantage

namespace Vantage

/-! ## Layout-preset variant: manual-trigger lock (unnamed variant source,
`handlePointerDown` and the intro-wave unlock in its useFrame) -/

def LOGO_VISIBILITY_EPSILON : ℚ := 1/100

/-- Variant component state: the shared wave/buffer refs plus the trigger
lock refs. -/
structure VariantState where
  core : WavesState
  isManualWaveTriggerUnlocked : Bool
  isLogoVisible : Bool
  deriving DecidableEq, Repr

/-- Events of the variant.  A `frame` carries the logo material opacity that
the glow update computed this frame (an input here: its envelope is driven by
the most recent wave and exponential damping); `isLogoVisibleRef` is set from
it by comparison with `LOGO_VISIBILITY_EPSILON`. -/
inductive VariantEvent
  | pointerDown
  | frame (now : ℚ) (contextLost : Bool) (rand rand2 : TriggerRand)
      (logoOpacity : ℚ)
  | complete (id : Nat)
  | qualityChange (q : Nat)
  | visibility (visible : Bool)

/-- The variant's `handlePointerDown` (lines 921-925): guarded by the
manual-trigger unlock and by logo visibility. -/
def variantPointerDown (st : VariantState) : VariantState :=
  if !st.isManualWaveTriggerUnlocked then st
  else if st.isLogoVisible then st
  else { st with core := { st.core with triggerQueue := true } }

/-- The variant's step function.  Its useFrame performs, in source order: the
capture decision, the logo-glow update (setting `isLogoVisibleRef`), the
trigger-queue drain, and the intro firing, which on success sets both
`hasFiredIntroWave` and `isManualWaveTriggerUnlocked` (lines 1135-1141). -/
def variantStep (maxWaves orbitCount : Nat) (st : VariantState) :
    VariantEvent → VariantState
  | .pointerDown => variantPointerDown st
  | .complete id => { st with core := handleWaveComplete id st.core }
  | .qualityChange q =>
      { st with
          core := applyMaxActiveWavesEffect (maxActiveWaves maxWaves q)
            (qualityCacheEffect { st.core with quality := q }) }
  | .visibility v => { st with core := handleVisibilityChange v st.core }
  | .frame now contextLost rand rand2 logoOpacity =>
      let cap := maxActiveWaves maxWaves st.core.quality
      let logoVisible := decide (LOGO_VISIBILITY_EPSILON < logoOpacity)
      let c1 := frameCapture contextLost st.core
      let c2 :=
        if c1.triggerQueue then
          (triggerWaveAction cap now rand orbitCount
            { c1 with triggerQueue := false }).1
        else c1
      if INTRO_DURATION < now ∧ c2.hasFiredIntroWave = false then
        let res := triggerWaveAction cap now rand2 orbitCount c2
        if res.2 then
          { core := { res.1 with hasFiredIntroWave := true }
            isManualWaveTriggerUnlocked := true
            isLogoVisible := logoVisible }
        else
          { st with core := res.1, isLogoVisible := logoVisible }
      else
        { st with core := c2, isLogoVisible := logoVisible }

/-- The variant state right after mount. -/
def initVariantState (maxWaves quality : Nat) : VariantState :=
  { core := initWavesState maxWaves quality
    isManualWaveTriggerUnlocked := false
    isLogoVisible := false }

end Vantage

namespace Vantage

/-! ## Invariants -/

/-- Every active slot sits at an index strictly below the activation cap:
the slots scanned by `triggerWaveAction`. -/
def ActiveWithinCap (cap : Nat) (waves : List WaveData) : Prop :=
  ∀ i, (h : i < waves.length) → cap ≤ i → waves[i].active = false

/-- The resolution rule in the specification's words: linear interpolation
`minResolution + (maxResolution - minResolution) * factor`, quantized to a
`0.25` step, then clamped to `[minResolution, maxResolution]`.  Stated for
comparison with `clampedDpr`, which is translated from the source. -/
def specResolutionOutput (minR maxR factor : ℚ) : ℚ :=
  max minR (min maxR
    (((round ((minR + (maxR - minR) * factor) * 4) : ℤ) : ℚ) / 4))

/-- The manual-trigger lock invariant of the layout-preset variant: the
manual unlock implies the intro wave has fired, and before the intro wave
fires no trigger is ever queued. -/
def VariantLockInv (st : VariantState) : Prop :=
  (st.isManualWaveTriggerUnlocked = true → st.core.hasFiredIntroWave = true)
  ∧ (st.core.hasFiredIntroWave = false → st.core.triggerQueue = false)

end Vantage

namespace Vantage

/-! ## Theorems -/

lemma detectIsMobile_hasWindow {s : DeviceSignals} (h : detectIsMobile s = true) :
    s.hasWindow = true := by
  unfold detectIsMobile at h
  cases hw : s.hasWindow with
  | true => rfl
  | false => simp [hw] at h

/-- **C6**: the device tier classifier is a total deterministic function of
the device signals into `{low, medium, high}`, and it follows the rule:
mobile detection first; mobile devices cap at `medium` and drop to `low` when
cores ≤ 4 or the memory hint is ≤ 4; desktops are `high` exactly when cores
≥ 8 and the memory hint is absent or ≥ 8, `low` when cores ≤ 4 or memory
hint ≤ 4, and `medium` otherwise; without a window object the result is
`medium`, and a missing core count behaves as 4 cores. -/
theorem tier_classifier_spec :
    (∀ s : DeviceSignals,
      detectPerformanceTier s = .low ∨ detectPerformanceTier s = .medium ∨
        detectPerformanceTier s = .high)
    ∧ (∀ s : DeviceSignals, s.hasWindow = false →
        detectPerformanceTier s = .medium)
    ∧ (∀ s : DeviceSignals, detectIsMobile s = true →
        detectPerformanceTier s ≠ .high)
    ∧ (∀ s : DeviceSignals, detectIsMobile s = true →
        (effectiveCores s ≤ 4 ∨ memoryAtMost4 s = true) →
        detectPerformanceTier s = .low)
    ∧ (∀ s : DeviceSignals, s.hasWindow = true → detectIsMobile s = false →
        (detectPerformanceTier s = .high ↔
          (8 ≤ effectiveCores s ∧ memoryAtLeast8OrUnknown s = true)))
    ∧ (∀ s : DeviceSignals, s.hasWindow = true → detectIsMobile s = false →
        ¬(8 ≤ effectiveCores s ∧ memoryAtLeast8OrUnknown s = true) →
        (effectiveCores s ≤ 4 ∨ memoryAtMost4 s = true) →
        detectPerformanceTier s = .low)
    ∧ (∀ s : DeviceSignals, s.hasWindow = true → detectIsMobile s = false →
        ¬(8 ≤ effectiveCores s ∧ memoryAtLeast8OrUnknown s = true) →
        ¬(effectiveCores s ≤ 4 ∨ memoryAtMost4 s = true) →
        detectPerformanceTier s = .medium)
    ∧ (∀ s : DeviceSignals,
        detectPerformanceTier { s with hardwareConcurrency := none } =
          detectPerformanceTier { s with hardwareConcurrency := some 4 }) := by
  refine ⟨?_, ?_, ?_, ?_, ?_, ?_, ?_, ?_⟩
  · intro s
    unfold detectPerformanceTier
    split
    · exact Or.inr (Or.inl rfl)
    · split
      · split
        · exact Or.inl rfl
        · exact Or.inr (Or.inl rfl)
      · split
        · exact Or.inr (Or.inr rfl)
        · split
          · exact Or.inl rfl
          · exact Or.inr (Or.inl rfl)
  · intro s h
    unfold detectPerformanceTier
    simp [h]
  · intro s h
    have hw := detectIsMobile_hasWindow h
    unfold detectPerformanceTier
    simp only [hw, Bool.not_true, h, if_true, Bool.false_eq_true, if_false]
    split <;> simp
  · intro s h hc
    have hw := detectIsMobile_hasWindow h
    unfold detectPerformanceTier
    have : (effectiveCores s ≤ 4 || memoryAtMost4 s) = true := by
      rcases hc with hc | hc
      · simp [hc]
      · simp [hc]
    simp [hw, h, this]
  · intro s hw hm
    unfold detectPerformanceTier
    simp only [hw, Bool.not_true, Bool.false_eq_true, if_false, hm]
    cases hcond : (8 ≤ effectiveCores s && memoryAtLeast8OrUnknown s) with
    | true =>
      have hc : decide (8 ≤ effectiveCores s) = true ∧
          memoryAtLeast8OrUnknown s = true := by
        simpa using hcond
      simp [of_decide_eq_true hc.1, hc.2]
    | false =>
      simp only [Bool.false_eq_true, if_false]
      constructor
      · intro hhigh
        exfalso
        split at hhigh <;> exact absurd hhigh (by decide)
      · rintro ⟨h8, hmem⟩
        rw [Bool.and_eq_false_iff] at hcond
        rcases hcond with hc | hc
        · exact absurd h8 (of_decide_eq_false hc)
        · rw [hc] at hmem
          exact absurd hmem (by decide)
  · intro s hw hm hnot hc
    unfold detectPerformanceTier
    have h1 : (8 ≤ effectiveCores s && memoryAtLeast8OrUnknown s) = false := by
      rw [Bool.and_eq_false_iff]
      by_cases h8 : 8 ≤ effectiveCores s
      · right
        cases hmem : memoryAtLeast8OrUnknown s with
        | true => exact absurd ⟨h8, hmem⟩ hnot
        | false => rfl
      · left; simpa using h8
    have h2 : (effectiveCores s ≤ 4 || memoryAtMost4 s) = true := by
      rcases hc with hc | hc
      · simp [hc]
      · simp [hc]
    simp [hw, hm, h1, h2]
  · intro s hw hm hnot hc
    unfold detectPerformanceTier
    have h1 : (8 ≤ effectiveCores s && memoryAtLeast8OrUnknown s) = false := by
      rw [Bool.and_eq_false_iff]
      by_cases h8 : 8 ≤ effectiveCores s
      · right
        cases hmem : memoryAtLeast8OrUnknown s with
        | true => exact absurd ⟨h8, hmem⟩ hnot
        | false => rfl
      · left; simpa using h8
    have h2 : (effectiveCores s ≤ 4 || memoryAtMost4 s) = false := by
      rw [Bool.or_eq_false_iff]
      constructor
      · by_cases h4 : effectiveCores s ≤ 4
        · exact absurd (Or.inl h4) hc
        · simpa using h4
      · cases hmem : memoryAtMost4 s with
        | true => exact absurd (Or.inr hmem) hc
        | false => rfl
    simp [hw, hm, h1, h2]
  · intro s
    unfold detectPerformanceTier detectIsMobile effectiveCores memoryAtMost4
      memoryAtLeast8OrUnknown
    rfl

/-- Witness for `tier_classifier_spec`: a concrete desktop with 8 cores and
no memory hint is classified `high`. -/
theorem tier_classifier_spec_witness :
    detectPerformanceTier
      { hasWindow := true, uaMobileMatch := false,
        touchWithoutFinePointer := false, hardwareConcurrency := some 8,
        deviceMemory := none } = .high := by
  exact (tier_classifier_spec.2.2.2.2.1
    { hasWindow := true, uaMobileMatch := false,
      touchWithoutFinePointer := false, hardwareConcurrency := some 8,
      deviceMemory := none } rfl (by decide)).mpr (by decide)

end Vantage

namespace Vantage

/-- **C7**: for an active wave, `cycle` is `(now - startTime) * waveSpeed`
clamped to `[0, 1]`; intensity is the three-segment envelope (linear fade-in
below `fadeInEnd`, constant 1 up to `fadeOutStart`, linear fade-out above);
opacity/distortion/thickness scale the intensity; at `cycle ≥ 1` the slot
completes with zeroed material; and with `fadeInEnd = 0.1`,
`fadeOutStart = 0.2`, `waveOpacity = 0.6` the opacities at cycles
`0, 0.1, 0.15, 1` are `0, 0.6, 0.6, 0`. -/
theorem wave_envelope_spec :
    (∀ speed now startTime : ℚ,
      waveCycle speed now startTime = min (max ((now - startTime) * speed) 0) 1)
    ∧ (∀ fadeInEnd fadeOutStart cycle : ℚ, cycle < fadeInEnd →
        waveIntensity fadeInEnd fadeOutStart cycle = cycle / fadeInEnd)
    ∧ (∀ fadeInEnd fadeOutStart cycle : ℚ, fadeInEnd ≤ cycle →
        cycle ≤ fadeOutStart → waveIntensity fadeInEnd fadeOutStart cycle = 1)
    ∧ (∀ fadeInEnd fadeOutStart cycle : ℚ, fadeInEnd ≤ cycle →
        fadeOutStart < cycle →
        waveIntensity fadeInEnd fadeOutStart cycle
          = 1 - (cycle - fadeOutStart) / (1 - fadeOutStart))
    ∧ (∀ (cfg : WaveBehaviorConfig) (now startTime : ℚ),
        waveCycle cfg.speed now startTime < 1 →
        (impulseWaveFrame cfg now startTime).completed = false ∧
        (impulseWaveFrame cfg now startTime).opacity =
          waveIntensity cfg.fadeInEnd cfg.fadeOutStart
            (waveCycle cfg.speed now startTime) * cfg.opacity ∧
        (impulseWaveFrame cfg now startTime).distortion =
          waveIntensity cfg.fadeInEnd cfg.fadeOutStart
            (waveCycle cfg.speed now startTime) * cfg.distortion ∧
        (impulseWaveFrame cfg now startTime).thickness =
          waveIntensity cfg.fadeInEnd cfg.fadeOutStart
            (waveCycle cfg.speed now startTime) * cfg.thickness)
    ∧ (∀ (cfg : WaveBehaviorConfig) (now startTime : ℚ),
        1 ≤ waveCycle cfg.speed now startTime →
        impulseWaveFrame cfg now startTime =
          { completed := true, opacity := 0, distortion := 0, thickness := 0,
            scale := none })
    ∧ ((impulseWaveFrame
          { speed := 1, maxScale := 2, fadeInEnd := 1/10, fadeOutStart := 1/5,
            thickness := 1, distortion := 1, opacity := 3/5 } 0 0).opacity = 0 ∧
        (impulseWaveFrame
          { speed := 1, maxScale := 2, fadeInEnd := 1/10, fadeOutStart := 1/5,
            thickness := 1, distortion := 1, opacity := 3/5 } (1/10) 0).opacity
          = 3/5 ∧
        (impulseWaveFrame
          { speed := 1, maxScale := 2, fadeInEnd := 1/10, fadeOutStart := 1/5,
            thickness := 1, distortion := 1, opacity := 3/5 } (3/20) 0).opacity
          = 3/5 ∧
        (impulseWaveFrame
          { speed := 1, maxScale := 2, fadeInEnd := 1/10, fadeOutStart := 1/5,
            thickness := 1, distortion := 1, opacity := 3/5 } 1 0).opacity = 0 ∧
        (impulseWaveFrame
          { speed := 1, maxScale := 2, fadeInEnd := 1/10, fadeOutStart := 1/5,
            thickness := 1, distortion := 1, opacity := 3/5 } 1 0).completed
          = true) := by
  refine ⟨?_, ?_, ?_, ?_, ?_, ?_, ?_⟩
  · intro speed now startTime
    simp only [waveCycle]
    rw [one_div, div_inv_eq_mul]
  · intro fadeInEnd fadeOutStart cycle h
    unfold waveIntensity
    rw [if_pos h]
  · intro fadeInEnd fadeOutStart cycle h1 h2
    unfold waveIntensity
    rw [if_neg (not_lt.mpr h1), if_neg (not_lt.mpr h2)]
  · intro fadeInEnd fadeOutStart cycle h1 h2
    unfold waveIntensity
    rw [if_neg (not_lt.mpr h1), if_pos h2]
  · intro cfg now startTime h
    unfold impulseWaveFrame
    rw [if_neg (not_le.mpr h)]
    exact ⟨rfl, rfl, rfl, rfl⟩
  · intro cfg now startTime h
    unfold impulseWaveFrame
    rw [if_pos h]
  · refine ⟨?_, ?_, ?_, ?_, ?_⟩ <;>
      norm_num [impulseWaveFrame, waveCycle, waveIntensity]

/-- Witness for `wave_envelope_spec`: the fade-in segment at `cycle = 0.05`
with `fadeInEnd = 0.1` gives intensity `0.5`. -/
theorem wave_envelope_spec_witness :
    waveIntensity (1/10) (1/5) (1/20) = (1/20 : ℚ) / (1/10) := by
  exact wave_envelope_spec.2.1 (1/10) (1/5) (1/20) (by norm_num)

end Vantage

namespace Vantage

/-- **C3**: for any tier and any sampled factor in `[0, 1]`, the DPR the
governor computes lies in `[minDpr(tier), perf.maxDpr]`, equals the
quantized-then-clamped linear interpolation the specification states, and is
a multiple of the `0.25` step; the quality target always lies in
`[0, maxQuality(tier)]` with `maxQuality = 2/1/0` for high/medium/low. -/
theorem governor_output_bounds :
    (∀ (tier : PerformanceTier) (factor : ℚ), 0 ≤ factor → factor ≤ 1 →
      tierToMinDpr tier ≤
          clampedDpr (tierToMinDpr tier) (buildConfig tier).maxDpr factor ∧
        clampedDpr (tierToMinDpr tier) (buildConfig tier).maxDpr factor ≤
          (buildConfig tier).maxDpr)
    ∧ (∀ minR maxR factor : ℚ,
        clampedDpr minR maxR factor = specResolutionOutput minR maxR factor)
    ∧ (∀ (tier : PerformanceTier) (factor : ℚ),
        ∃ k : ℤ,
          clampedDpr (tierToMinDpr tier) (buildConfig tier).maxDpr factor
            = (k : ℚ) / 4)
    ∧ (tierToMaxQuality .high = 2 ∧ tierToMaxQuality .medium = 1 ∧
        tierToMaxQuality .low = 0)
    ∧ (∀ (tier : PerformanceTier) (factor : ℚ),
        targetQualityOf (tierToMaxQuality tier) (tierToMinQuality tier) factor
          ≤ tierToMaxQuality tier) := by
  refine ⟨?_, ?_, ?_, ⟨rfl, rfl, rfl⟩, ?_⟩
  · intro tier factor _ _
    have hle : tierToMinDpr tier ≤ (buildConfig tier).maxDpr := by
      cases tier <;> norm_num [tierToMinDpr, buildConfig]
    exact ⟨le_max_left _ _, max_le hle (min_le_left _ _)⟩
  · intro minR maxR factor
    rfl
  · intro tier factor
    unfold clampedDpr
    rcases max_choice (tierToMinDpr tier)
      (min (buildConfig tier).maxDpr
        (nextDpr (tierToMinDpr tier) (buildConfig tier).maxDpr factor)) with h | h
    · rw [h]
      cases tier
      · exact ⟨3, by norm_num [tierToMinDpr]⟩
      · exact ⟨4, by norm_num [tierToMinDpr]⟩
      · exact ⟨6, by norm_num [tierToMinDpr]⟩
    · rw [h]
      rcases min_choice (buildConfig tier).maxDpr
        (nextDpr (tierToMinDpr tier) (buildConfig tier).maxDpr factor) with h2 | h2
      · rw [h2]
        cases tier
        · exact ⟨4, by norm_num [buildConfig]⟩
        · exact ⟨6, by norm_num [buildConfig]⟩
        · exact ⟨8, by norm_num [buildConfig]⟩
      · rw [h2]
        exact ⟨round ((tierToMinDpr tier +
          ((buildConfig tier).maxDpr - tierToMinDpr tier) * factor) * 4), rfl⟩
  · intro tier factor
    cases tier <;>
      · simp only [targetQualityOf, tierToMaxQuality, tierToMinQuality,
          tierToMidQuality]
        split_ifs <;> simp_all

/-- Witness for `governor_output_bounds`: the low tier at factor `1/2` stays
within `[0.75, 1]`. -/
theorem governor_output_bounds_witness :
    tierToMinDpr .low ≤ clampedDpr (tierToMinDpr .low) (buildConfig .low).maxDpr (1/2)
      ∧ clampedDpr (tierToMinDpr .low) (buildConfig .low).maxDpr (1/2)
        ≤ (buildConfig .low).maxDpr := by
  exact governor_output_bounds.1 .low (1/2) (by norm_num) (by norm_num)

end Vantage

namespace Vantage

/-- **C5**: on a visibility/focus event while the document is visible the
governor resets both cooldown timestamps to `-∞`, re-arms the resume-grace
and startup-rise deadlines, and restores the moderate baseline DPR and the
tier's mid quality, independently of the pre-hide state; when the document is
not visible the handler does nothing, and governor samples are ignored. -/
theorem visibility_restore_baseline :
    (∀ (perf : PerformanceConfig) (now : ℚ) (st : GovState),
      restoreVisualState perf true now st =
        { dpr := min perf.maxDpr
            (max (if perf.tier = .high then 3/2 else 1) (tierToMinDpr perf.tier))
          quality := tierToMidQuality (tierToMaxQuality perf.tier)
          lastQualityChange := none
          lastDprChange := none
          resumeGraceUntil := now + 1200
          allowQualityRiseAt := now + STARTUP_QUALITY_RISE_DELAY_MS })
    ∧ (∀ (perf : PerformanceConfig) (now : ℚ) (st st' : GovState),
        restoreVisualState perf true now st = restoreVisualState perf true now st')
    ∧ (∀ (perf : PerformanceConfig) (now : ℚ) (st : GovState),
        restoreVisualState perf false now st = st)
    ∧ (∀ (perf : PerformanceConfig) (st : GovState) (s : GovSample),
        s.visible = false → handlePerformanceChange perf st s = st) := by
  refine ⟨?_, ?_, ?_, ?_⟩
  · intro perf now st
    rfl
  · intro perf now st st'
    rfl
  · intro perf now st
    rfl
  · intro perf st s h
    unfold handlePerformanceChange
    simp [h]

/-- Witness for `visibility_restore_baseline`: a hidden-document sample is a
no-op on a concrete state. -/
theorem visibility_restore_baseline_witness :
    handlePerformanceChange (buildConfig .low) (initialGovState (buildConfig .low) 0)
      { now := 1000, factor := 1, visible := false }
      = initialGovState (buildConfig .low) 0 := by
  exact visibility_restore_baseline.2.2.2 (buildConfig .low)
    (initialGovState (buildConfig .low) 0)
    { now := 1000, factor := 1, visible := false } rfl

end Vantage

namespace Vantage

lemma applyDprUpdate_quality_fields (perf : PerformanceConfig) (st : GovState)
    (s : GovSample) :
    (applyDprUpdate perf st s).quality = st.quality ∧
    (applyDprUpdate perf st s).lastQualityChange = st.lastQualityChange ∧
    (applyDprUpdate perf st s).allowQualityRiseAt = st.allowQualityRiseAt ∧
    (applyDprUpdate perf st s).resumeGraceUntil = st.resumeGraceUntil := by
  simp only [applyDprUpdate]
  split_ifs <;> simp

lemma applyQualityUpdate_dpr_fields (perf : PerformanceConfig) (st : GovState)
    (s : GovSample) :
    (applyQualityUpdate perf st s).dpr = st.dpr ∧
    (applyQualityUpdate perf st s).lastDprChange = st.lastDprChange ∧
    (applyQualityUpdate perf st s).allowQualityRiseAt = st.allowQualityRiseAt ∧
    (applyQualityUpdate perf st s).resumeGraceUntil = st.resumeGraceUntil := by
  simp only [applyQualityUpdate]
  split_ifs <;> simp

lemma applyDprUpdate_eq (perf : PerformanceConfig) (st : GovState)
    (s : GovSample) :
    applyDprUpdate perf st s = st ∨
    (applyDprUpdate perf st s =
        { st with
            dpr := clampedDpr (tierToMinDpr perf.tier) perf.maxDpr s.factor
            lastDprChange := some s.now } ∧
      withinCooldown st.lastDprChange s.now
        (if clampedDpr (tierToMinDpr perf.tier) perf.maxDpr s.factor < st.dpr
          then DPR_DROP_COOLDOWN_MS else DPR_RISE_COOLDOWN_MS) = false ∧
      ¬|clampedDpr (tierToMinDpr perf.tier) perf.maxDpr s.factor - st.dpr| <
          DPR_MIN_DELTA_TO_APPLY) := by
  by_cases hd :
      clampedDpr (tierToMinDpr perf.tier) perf.maxDpr s.factor - st.dpr < 0
  · have hlt : clampedDpr (tierToMinDpr perf.tier) perf.maxDpr s.factor <
        st.dpr := by linarith
    simp only [applyDprUpdate, if_pos hd, if_pos hlt]
    split_ifs with h1 h2
    · exact Or.inl rfl
    · exact Or.inl rfl
    · exact Or.inr ⟨rfl, Bool.not_eq_true _ ▸ h2, h1⟩
  · have hge : ¬clampedDpr (tierToMinDpr perf.tier) perf.maxDpr s.factor <
        st.dpr := fun hx => hd (by linarith)
    simp only [applyDprUpdate, if_neg hd, if_neg hge]
    split_ifs with h1 h2
    · exact Or.inl rfl
    · exact Or.inl rfl
    · exact Or.inr ⟨rfl, Bool.not_eq_true _ ▸ h2, h1⟩

lemma applyDprUpdate_change (perf : PerformanceConfig) (st : GovState)
    (s : GovSample) (h : (applyDprUpdate perf st s).dpr ≠ st.dpr) :
    (applyDprUpdate perf st s).lastDprChange = some s.now ∧
    withinCooldown st.lastDprChange s.now
      (if (applyDprUpdate perf st s).dpr < st.dpr then DPR_DROP_COOLDOWN_MS
        else DPR_RISE_COOLDOWN_MS) = false := by
  rcases applyDprUpdate_eq perf st s with heq | ⟨heq, hw, _⟩
  · rw [heq] at h
    exact absurd rfl h
  · rw [heq]
    exact ⟨rfl, hw⟩

lemma applyDprUpdate_nochange (perf : PerformanceConfig) (st : GovState)
    (s : GovSample) (h : (applyDprUpdate perf st s).dpr = st.dpr) :
    (applyDprUpdate perf st s).lastDprChange = st.lastDprChange := by
  rcases applyDprUpdate_eq perf st s with heq | ⟨heq, _, hbig⟩
  · rw [heq]
  · rw [heq] at h
    dsimp only at h
    rw [h, sub_self, abs_zero] at hbig
    exact absurd (by norm_num [DPR_MIN_DELTA_TO_APPLY]) hbig

lemma applyQualityUpdate_eq (perf : PerformanceConfig) (st : GovState)
    (s : GovSample) :
    applyQualityUpdate perf st s = st ∨
    (applyQualityUpdate perf st s =
        { st with
            quality := targetQualityOf (tierToMaxQuality perf.tier)
              (tierToMinQuality perf.tier) s.factor
            lastQualityChange := some s.now } ∧
      targetQualityOf (tierToMaxQuality perf.tier) (tierToMinQuality perf.tier)
          s.factor ≠ st.quality ∧
      withinCooldown st.lastQualityChange s.now
        (if targetQualityOf (tierToMaxQuality perf.tier)
              (tierToMinQuality perf.tier) s.factor < st.quality
          then QUALITY_DROP_COOLDOWN_MS else QUALITY_RISE_COOLDOWN_MS)
        = false ∧
      (st.quality < targetQualityOf (tierToMaxQuality perf.tier)
          (tierToMinQuality perf.tier) s.factor →
        st.allowQualityRiseAt ≤ s.now)) := by
  by_cases hq : targetQualityOf (tierToMaxQuality perf.tier)
      (tierToMinQuality perf.tier) s.factor < st.quality
  · simp only [applyQualityUpdate, if_pos hq]
    split_ifs with h1 h2 h3
    · exact Or.inl rfl
    · exact Or.inl rfl
    · exact Or.inl rfl
    · refine Or.inr ⟨rfl, h1, Bool.not_eq_true _ ▸ h3, fun hrise => ?_⟩
      by_contra hlt
      exact h2 ⟨hrise, lt_of_not_le hlt⟩
  · simp only [applyQualityUpdate, if_neg hq]
    split_ifs with h1 h2 h3
    · exact Or.inl rfl
    · exact Or.inl rfl
    · exact Or.inl rfl
    · refine Or.inr ⟨rfl, h1, Bool.not_eq_true _ ▸ h3, fun hrise => ?_⟩
      by_contra hlt
      exact h2 ⟨hrise, lt_of_not_le hlt⟩

lemma applyQualityUpdate_change (perf : PerformanceConfig) (st : GovState)
    (s : GovSample) (h : (applyQualityUpdate perf st s).quality ≠ st.quality) :
    (applyQualityUpdate perf st s).lastQualityChange = some s.now ∧
    withinCooldown st.lastQualityChange s.now
      (if (applyQualityUpdate perf st s).quality < st.quality
        then QUALITY_DROP_COOLDOWN_MS else QUALITY_RISE_COOLDOWN_MS) = false ∧
    (st.quality < (applyQualityUpdate perf st s).quality →
      st.allowQualityRiseAt ≤ s.now) := by
  rcases applyQualityUpdate_eq perf st s with heq | ⟨heq, _, hw, hrise⟩
  · rw [heq] at h
    exact absurd rfl h
  · rw [heq]
    exact ⟨rfl, hw, hrise⟩

lemma applyQualityUpdate_nochange (perf : PerformanceConfig) (st : GovState)
    (s : GovSample) (h : (applyQualityUpdate perf st s).quality = st.quality) :
    (applyQualityUpdate perf st s).lastQualityChange =
      st.lastQualityChange := by
  rcases applyQualityUpdate_eq perf st s with heq | ⟨heq, hne, _, _⟩
  · rw [heq]
  · rw [heq] at h
    dsimp only at h
    exact absurd h hne

lemma handlePerformanceChange_allow (perf : PerformanceConfig) (st : GovState)
    (s : GovSample) :
    (handlePerformanceChange perf st s).allowQualityRiseAt =
      st.allowQualityRiseAt := by
  unfold handlePerformanceChange
  split_ifs
  · rfl
  · rfl
  · rw [(applyQualityUpdate_dpr_fields perf _ s).2.2.1,
      (applyDprUpdate_quality_fields perf st s).2.2.1]

lemma handlePerformanceChange_dpr_change (perf : PerformanceConfig)
    (st : GovState) (s : GovSample)
    (h : (handlePerformanceChange perf st s).dpr ≠ st.dpr) :
    (handlePerformanceChange perf st s).lastDprChange = some s.now ∧
    withinCooldown st.lastDprChange s.now
      (if (handlePerformanceChange perf st s).dpr < st.dpr
        then DPR_DROP_COOLDOWN_MS else DPR_RISE_COOLDOWN_MS) = false := by
  unfold handlePerformanceChange at h ⊢
  by_cases hv : (!s.visible) = true
  · rw [if_pos hv] at h
    exact absurd rfl h
  · by_cases hg : s.now < st.resumeGraceUntil
    · rw [if_neg hv, if_pos hg] at h
      exact absurd rfl h
    · rw [if_neg hv, if_neg hg] at h ⊢
      rw [(applyQualityUpdate_dpr_fields perf _ s).1] at h ⊢
      rw [(applyQualityUpdate_dpr_fields perf _ s).2.1]
      exact applyDprUpdate_change perf st s h

lemma handlePerformanceChange_dpr_nochange (perf : PerformanceConfig)
    (st : GovState) (s : GovSample)
    (h : (handlePerformanceChange perf st s).dpr = st.dpr) :
    (handlePerformanceChange perf st s).lastDprChange = st.lastDprChange := by
  unfold handlePerformanceChange at h ⊢
  split_ifs at h ⊢
  · rfl
  · rfl
  · rw [(applyQualityUpdate_dpr_fields perf _ s).1] at h
    rw [(applyQualityUpdate_dpr_fields perf _ s).2.1]
    exact applyDprUpdate_nochange perf st s h

lemma handlePerformanceChange_quality_change (perf : PerformanceConfig)
    (st : GovState) (s : GovSample)
    (h : (handlePerformanceChange perf st s).quality ≠ st.quality) :
    (handlePerformanceChange perf st s).lastQualityChange = some s.now ∧
    withinCooldown st.lastQualityChange s.now
      (if (handlePerformanceChange perf st s).quality < st.quality
        then QUALITY_DROP_COOLDOWN_MS else QUALITY_RISE_COOLDOWN_MS) = false ∧
    (st.quality < (handlePerformanceChange perf st s).quality →
      st.allowQualityRiseAt ≤ s.now) := by
  unfold handlePerformanceChange at h ⊢
  by_cases hv : (!s.visible) = true
  · rw [if_pos hv] at h
    exact absurd rfl h
  · by_cases hg : s.now < st.resumeGraceUntil
    · rw [if_neg hv, if_pos hg] at h
      exact absurd rfl h
    · rw [if_neg hv, if_neg hg] at h ⊢
      have hd := applyDprUpdate_quality_fields perf st s
      have h' : (applyQualityUpdate perf (applyDprUpdate perf st s) s).quality ≠
          (applyDprUpdate perf st s).quality := by
        rw [hd.1]; exact h
      have hc := applyQualityUpdate_change perf (applyDprUpdate perf st s) s h'
      refine ⟨hc.1, ?_, ?_⟩
      · rw [← hd.2.1, ← hd.1]
        exact hc.2.1
      · intro hrise
        rw [← hd.2.2.1]
        exact hc.2.2 (by rw [hd.1]; exact hrise)

lemma handlePerformanceChange_quality_nochange (perf : PerformanceConfig)
    (st : GovState) (s : GovSample)
    (h : (handlePerformanceChange perf st s).quality = st.quality) :
    (handlePerformanceChange perf st s).lastQualityChange =
      st.lastQualityChange := by
  unfold handlePerformanceChange at h ⊢
  split_ifs at h ⊢
  · rfl
  · rfl
  · have hd := applyDprUpdate_quality_fields perf st s
    have h' : (applyQualityUpdate perf (applyDprUpdate perf st s) s).quality =
        (applyDprUpdate perf st s).quality := by
      rw [hd.1]; exact h
    rw [applyQualityUpdate_nochange perf _ s h', hd.2.1]

end Vantage

namespace Vantage

lemma govRun_succ (perf : PerformanceConfig) (init : GovState)
    (f : ℕ → GovSample) (n : ℕ) :
    govRun perf init f (n + 1) =
      handlePerformanceChange perf (govRun perf init f n) (f n) := rfl

lemma govRun_allow (perf : PerformanceConfig) (init : GovState)
    (f : ℕ → GovSample) : ∀ n,
    (govRun perf init f n).allowQualityRiseAt = init.allowQualityRiseAt
  | 0 => rfl
  | n + 1 => by
    rw [govRun_succ, handlePerformanceChange_allow]
    exact govRun_allow perf init f n

/-- **C4**: along any sequence of governor samples, two consecutively applied
changes of the same state variable are separated by at least the cooldown of
the kind of the later change — 800 ms for DPR drops, 1500 ms for DPR rises,
900 ms for quality drops, 3200 ms for quality rises — each drop cooldown is
strictly shorter than its rise cooldown, a quality rise is never applied
before the `allowQualityRiseAt` deadline (which samples never move), and the
mount initialisation arms that deadline 6000 ms into the future. -/
theorem governor_cooldown_separation :
    (DPR_DROP_COOLDOWN_MS < DPR_RISE_COOLDOWN_MS ∧
      QUALITY_DROP_COOLDOWN_MS < QUALITY_RISE_COOLDOWN_MS)
    ∧ (∀ (perf : PerformanceConfig) (init : GovState) (f : ℕ → GovSample)
        (i j : ℕ), i < j →
        (govRun perf init f (i + 1)).dpr ≠ (govRun perf init f i).dpr →
        (govRun perf init f (j + 1)).dpr ≠ (govRun perf init f j).dpr →
        (∀ k, i < k → k < j →
          (govRun perf init f (k + 1)).dpr = (govRun perf init f k).dpr) →
        (f i).now +
            (if (govRun perf init f (j + 1)).dpr < (govRun perf init f j).dpr
              then DPR_DROP_COOLDOWN_MS else DPR_RISE_COOLDOWN_MS)
          ≤ (f j).now)
    ∧ (∀ (perf : PerformanceConfig) (init : GovState) (f : ℕ → GovSample)
        (i j : ℕ), i < j →
        (govRun perf init f (i + 1)).quality ≠ (govRun perf init f i).quality →
        (govRun perf init f (j + 1)).quality ≠ (govRun perf init f j).quality →
        (∀ k, i < k → k < j →
          (govRun perf init f (k + 1)).quality =
            (govRun perf init f k).quality) →
        (f i).now +
            (if (govRun perf init f (j + 1)).quality <
                (govRun perf init f j).quality
              then QUALITY_DROP_COOLDOWN_MS else QUALITY_RISE_COOLDOWN_MS)
          ≤ (f j).now)
    ∧ (∀ (perf : PerformanceConfig) (init : GovState) (f : ℕ → GovSample)
        (j : ℕ),
        (govRun perf init f j).quality < (govRun perf init f (j + 1)).quality →
        init.allowQualityRiseAt ≤ (f j).now)
    ∧ (∀ (perf : PerformanceConfig) (mountNow : ℚ),
        (initialGovState perf mountNow).allowQualityRiseAt =
          mountNow + STARTUP_QUALITY_RISE_DELAY_MS) := by
  refine ⟨⟨by norm_num [DPR_DROP_COOLDOWN_MS, DPR_RISE_COOLDOWN_MS],
    by norm_num [QUALITY_DROP_COOLDOWN_MS, QUALITY_RISE_COOLDOWN_MS]⟩,
    ?_, ?_, ?_, fun perf mountNow => rfl⟩
  · intro perf init f i j hij hi hj hbetween
    have key : ∀ k, i < k → k ≤ j →
        (govRun perf init f k).lastDprChange = some (f i).now := by
      intro k
      induction k with
      | zero => intro h1 _; exact absurd h1 (Nat.not_lt_zero i)
      | succ n ih =>
        intro h1 h2
        rcases Nat.lt_or_ge i n with hn | hn
        · rw [govRun_succ,
            handlePerformanceChange_dpr_nochange perf _ (f n)
              (hbetween n hn (by omega))]
          exact ih hn (by omega)
        · have hni : n = i := by omega
          subst hni
          rw [govRun_succ]
          exact (handlePerformanceChange_dpr_change perf _ (f n) hi).1
    have hkey := key j hij (le_refl j)
    have hc := (handlePerformanceChange_dpr_change perf
      (govRun perf init f j) (f j) hj).2
    rw [hkey] at hc
    simp only [withinCooldown] at hc
    have hle := of_decide_eq_false hc
    push_neg at hle
    rw [govRun_succ]
    linarith [hle]
  · intro perf init f i j hij hi hj hbetween
    have key : ∀ k, i < k → k ≤ j →
        (govRun perf init f k).lastQualityChange = some (f i).now := by
      intro k
      induction k with
      | zero => intro h1 _; exact absurd h1 (Nat.not_lt_zero i)
      | succ n ih =>
        intro h1 h2
        rcases Nat.lt_or_ge i n with hn | hn
        · rw [govRun_succ,
            handlePerformanceChange_quality_nochange perf _ (f n)
              (hbetween n hn (by omega))]
          exact ih hn (by omega)
        · have hni : n = i := by omega
          subst hni
          rw [govRun_succ]
          exact (handlePerformanceChange_quality_change perf _ (f n) hi).1
    have hkey := key j hij (le_refl j)
    have hc := (handlePerformanceChange_quality_change perf
      (govRun perf init f j) (f j) hj).2.1
    rw [hkey] at hc
    simp only [withinCooldown] at hc
    have hle := of_decide_eq_false hc
    push_neg at hle
    rw [govRun_succ]
    linarith [hle]
  · intro perf init f j hrise
    have hc := (handlePerformanceChange_quality_change perf
      (govRun perf init f j) (f j) (Nat.ne_of_lt hrise).symm).2.2
    rw [← govRun_allow perf init f j]
    exact hc hrise

end Vantage


namespace Vantage

/-- Witness for `governor_cooldown_separation`: on the low tier, a DPR drop
applied at `t = 10000` followed by a DPR rise applied at `t = 20000`
satisfies the 1500 ms rise cooldown. -/
theorem governor_cooldown_separation_witness :
    (10000 : ℚ) + DPR_RISE_COOLDOWN_MS ≤ 20000 := by
  have hc0 : clampedDpr (3/4) 1 0 = 3/4 := by
    norm_num [clampedDpr, nextDpr, min_def, max_def]
  have hc1 : clampedDpr (3/4) 1 1 = 1 := by
    norm_num [clampedDpr, nextDpr, min_def, max_def]
  have e1 : govRun (buildConfig .low) ⟨1, 0, none, none, 0, 0⟩
      (fun n => if n = 0 then ⟨10000, 0, true⟩ else ⟨20000, 1, true⟩) 1
      = ⟨3/4, 0, none, some 10000, 0, 0⟩ := by
    show handlePerformanceChange (buildConfig .low)
      ⟨1, 0, none, none, 0, 0⟩ ⟨10000, 0, true⟩ = _
    simp only [handlePerformanceChange, applyDprUpdate, applyQualityUpdate,
      buildConfig, tierToMinDpr, tierToMaxQuality, tierToMinQuality, hc0]
    norm_num [withinCooldown, targetQualityOf, tierToMidQuality,
      DPR_MIN_DELTA_TO_APPLY, DPR_DROP_COOLDOWN_MS, GovState.mk.injEq, abs_lt]
  have e2 : govRun (buildConfig .low) ⟨1, 0, none, none, 0, 0⟩
      (fun n => if n = 0 then ⟨10000, 0, true⟩ else ⟨20000, 1, true⟩) 2
      = ⟨1, 0, none, some 20000, 0, 0⟩ := by
    have h2 : govRun (buildConfig .low) ⟨1, 0, none, none, 0, 0⟩
        (fun n => if n = 0 then ⟨10000, 0, true⟩ else ⟨20000, 1, true⟩) 2
        = handlePerformanceChange (buildConfig .low)
            (govRun (buildConfig .low) ⟨1, 0, none, none, 0, 0⟩
              (fun n => if n = 0 then ⟨10000, 0, true⟩ else ⟨20000, 1, true⟩) 1)
            ⟨20000, 1, true⟩ := rfl
    rw [h2, e1]
    simp only [handlePerformanceChange, applyDprUpdate, applyQualityUpdate,
      buildConfig, tierToMinDpr, tierToMaxQuality, tierToMinQuality, hc1]
    norm_num [withinCooldown, targetQualityOf, tierToMidQuality,
      DPR_MIN_DELTA_TO_APPLY, DPR_DROP_COOLDOWN_MS, DPR_RISE_COOLDOWN_MS,
      GovState.mk.injEq, abs_lt, decide_eq_true_eq]
  have h := governor_cooldown_separation.2.1 (buildConfig .low)
      ⟨1, 0, none, none, 0, 0⟩
      (fun n => if n = 0 then ⟨10000, 0, true⟩ else ⟨20000, 1, true⟩)
      0 1 (by norm_num)
      (by rw [e1]; show (3/4 : ℚ) ≠ 1; norm_num)
      (by rw [e2, e1]; show (1 : ℚ) ≠ 3/4; norm_num)
      (fun k hk1 hk2 => absurd (hk1.trans hk2) (by omega))
  rw [e2, e1] at h
  have hif : (if (1 : ℚ) < 3/4 then DPR_DROP_COOLDOWN_MS
      else DPR_RISE_COOLDOWN_MS) = DPR_RISE_COOLDOWN_MS := by
    rw [if_neg]
    norm_num
  rw [hif] at h
  exact h

end Vantage

namespace Vantage

lemma findAvailableWaveIndex_spec {waves : List WaveData} {limit k : Nat}
    (h : findAvailableWaveIndex waves limit = some k) :
    ∃ _ : k < waves.length, k < limit ∧ waves[k].active = false := by
  unfold findAvailableWaveIndex at h
  rw [List.findIdx?_eq_some_iff_getElem] at h
  obtain ⟨hlen, hp, -⟩ := h
  have hlen' := hlen
  rw [List.length_take, lt_min_iff] at hlen'
  refine ⟨hlen'.2, hlen'.1, ?_⟩
  rw [List.getElem_take] at hp
  simpa using hp

lemma findAvailableWaveIndex_none {waves : List WaveData} {limit : Nat}
    (h : findAvailableWaveIndex waves limit = none) :
    ∀ w ∈ waves.take limit, w.active = true := by
  unfold findAvailableWaveIndex at h
  rw [List.findIdx?_eq_none_iff] at h
  intro w hw
  have := h w hw
  simpa using this

/-- What one `triggerWaveAction` call does: either the scan finds no free
slot and the state is returned untouched, or the first free slot `k` below
the activation limit is activated with the selected orbit, and the cache
version is bumped exactly on the idle-to-active transition. -/
lemma triggerWaveAction_cases (cap : Nat) (now : ℚ) (rand : TriggerRand)
    (orbitCount : Nat) (st : WavesState) :
    (triggerWaveAction cap now rand orbitCount st = (st, false) ∧
      findAvailableWaveIndex st.waves (min cap st.waves.length) = none) ∨
    (∃ (k : Nat) (hk : k < st.waves.length),
      k < min cap st.waves.length ∧ st.waves[k].active = false ∧
      triggerWaveAction cap now rand orbitCount st =
        ({ st with
            waves := st.waves.set k
              { st.waves[k] with
                  active := true
                  startTime := now
                  orbitIndex := selectNextOrbit st.waves
                    (min cap st.waves.length) orbitCount st.lastOrbitIndex
                    rand }
            lastOrbitIndex := (selectNextOrbit st.waves
              (min cap st.waves.length) orbitCount st.lastOrbitIndex
              rand : ℤ)
            activeWavesCount := st.activeWavesCount + 1
            lastActiveWaveId := some st.waves[k].id
            transmissionCacheVersion :=
              if 0 < st.activeWavesCount then st.transmissionCacheVersion
              else st.transmissionCacheVersion + 1
            hasCachedTransmissionFrame :=
              if 0 < st.activeWavesCount then st.hasCachedTransmissionFrame
              else false },
          true)) := by
  simp only [triggerWaveAction]
  cases hfa : findAvailableWaveIndex st.waves (min cap st.waves.length) with
  | none => exact Or.inl ⟨rfl, rfl⟩
  | some k =>
    obtain ⟨hk, hkcap, hactive⟩ := findAvailableWaveIndex_spec hfa
    refine Or.inr ⟨k, hk, hkcap, hactive, ?_⟩
    dsimp only
    rw [List.get?_eq_getElem?, List.getElem?_eq_getElem hk]
    dsimp only
    simp only [hactive, Bool.false_eq_true, if_false]

lemma triggerWaveAction_fixed_fields (cap : Nat) (now : ℚ)
    (rand : TriggerRand) (orbitCount : Nat) (st : WavesState) :
    ((triggerWaveAction cap now rand orbitCount st).1).quality = st.quality ∧
    ((triggerWaveAction cap now rand orbitCount st).1).triggerQueue =
      st.triggerQueue ∧
    ((triggerWaveAction cap now rand orbitCount st).1).hasFiredIntroWave =
      st.hasFiredIntroWave ∧
    ((triggerWaveAction cap now rand orbitCount st).1
      ).capturedTransmissionCacheVersion =
        st.capturedTransmissionCacheVersion := by
  rcases triggerWaveAction_cases cap now rand orbitCount st with
    ⟨heq, -⟩ | ⟨k, hk, hkcap, hactive, heq⟩ <;> rw [heq] <;> exact ⟨rfl, rfl, rfl, rfl⟩

/-- The capture decision: it either leaves the state alone, performs the
capture (recording `capturedVersion := cacheVersion`) exactly when a wave is
active, the context is not lost and the cache is stale, or clears the
cached-frame flag on an idle frame. -/
lemma frameCapture_eq (cl : Bool) (st : WavesState) :
    frameCapture cl st = st ∨
    (0 < st.activeWavesCount ∧ cl = false ∧
      (st.hasCachedTransmissionFrame = false ∨
        st.capturedTransmissionCacheVersion ≠
          (st.transmissionCacheVersion : ℤ)) ∧
      frameCapture cl st =
        { st with
            hasCachedTransmissionFrame := true
            capturedTransmissionCacheVersion :=
              (st.transmissionCacheVersion : ℤ) }) ∨
    (¬0 < st.activeWavesCount ∧ st.hasCachedTransmissionFrame = true ∧
      frameCapture cl st = { st with hasCachedTransmissionFrame := false }) := by
  simp only [frameCapture]
  split_ifs with h1 h2 h3 h4
  · refine Or.inr (Or.inl ⟨h1, ?_, ?_, rfl⟩)
    · simpa using h3
    · rcases h2 with h2 | h2
      · exact Or.inl (by simpa using h2)
      · exact Or.inr h2
  · exact Or.inl rfl
  · exact Or.inl rfl
  · exact Or.inr (Or.inr ⟨h1, h4, rfl⟩)
  · exact Or.inl rfl

lemma frameCapture_waves (cl : Bool) (st : WavesState) :
    (frameCapture cl st).waves = st.waves ∧
    (frameCapture cl st).quality = st.quality ∧
    (frameCapture cl st).activeWavesCount = st.activeWavesCount ∧
    (frameCapture cl st).triggerQueue = st.triggerQueue ∧
    (frameCapture cl st).hasFiredIntroWave = st.hasFiredIntroWave ∧
    (frameCapture cl st).transmissionCacheVersion =
      st.transmissionCacheVersion := by
  simp only [frameCapture]
  split_ifs <;> exact ⟨rfl, rfl, rfl, rfl, rfl, rfl⟩

end Vantage

namespace Vantage

lemma triggerWaveAction_inv (cap : Nat) (now : ℚ) (rand : TriggerRand)
    (orbitCount : Nat) (st : WavesState)
    (hinv : ActiveWithinCap cap st.waves) :
    ActiveWithinCap cap
      ((triggerWaveAction cap now rand orbitCount st).1).waves := by
  rcases triggerWaveAction_cases cap now rand orbitCount st with
    ⟨heq, -⟩ | ⟨k, hk, hkcap, ha, heq⟩
  · rw [heq]
    exact hinv
  · rw [heq]
    intro i hi hcapi
    dsimp only at hi ⊢
    rw [List.length_set] at hi
    rw [List.getElem_set, if_neg ?hne]
    · exact hinv i hi hcapi
    case hne =>
      have hkc : k < cap := lt_of_lt_of_le hkcap (min_le_left _ _)
      omega

lemma handleWaveComplete_inv (cap : Nat) (id : Nat) (st : WavesState)
    (hinv : ActiveWithinCap cap st.waves) :
    ActiveWithinCap cap (handleWaveComplete id st).waves := by
  simp only [handleWaveComplete]
  cases hfi : st.waves.findIdx? (fun w => w.id == id) with
  | none => exact hinv
  | some i =>
    dsimp only
    cases hg : st.waves.get? i with
    | none => exact hinv
    | some w =>
      dsimp only
      have hset : ActiveWithinCap cap
          (st.waves.set i { w with active := false }) := by
        intro j hj hcapj
        rw [List.length_set] at hj
        rw [List.getElem_set]
        split
        · rfl
        · exact hinv j hj hcapj
      split_ifs with hw hl
      · exact hset
      · exact hset
      · exact hinv

lemma applyMaxActiveWavesEffect_inv (cap : Nat) (st : WavesState) :
    ActiveWithinCap cap (applyMaxActiveWavesEffect cap st).waves := by
  intro i hi hcapi
  simp only [applyMaxActiveWavesEffect] at hi ⊢
  rw [List.length_mapIdx] at hi
  rw [List.getElem_mapIdx]
  by_cases ha : st.waves[i].active = true
  · rw [if_pos (by simp [hcapi, ha])]
  · rw [if_neg (by simp [ha])]
    simpa using ha

lemma applyMaxActiveWavesEffect_quality (cap : Nat) (st : WavesState) :
    (applyMaxActiveWavesEffect cap st).quality = st.quality ∧
    (applyMaxActiveWavesEffect cap st).triggerQueue = st.triggerQueue ∧
    (applyMaxActiveWavesEffect cap st).hasFiredIntroWave =
      st.hasFiredIntroWave := by
  exact ⟨rfl, rfl, rfl⟩

lemma countActive_le (cap : Nat) (st : WavesState)
    (hinv : ActiveWithinCap cap st.waves) :
    countActive st ≤ min st.waves.length cap := by
  unfold countActive
  have hdrop : List.countP (fun w => w.active) (st.waves.drop cap) = 0 := by
    rw [List.countP_eq_zero]
    intro a hmem
    obtain ⟨j, hj, rfl⟩ := List.getElem_of_mem hmem
    rw [List.getElem_drop]
    have hjlen : cap + j < st.waves.length := by
      rw [List.length_drop] at hj
      omega
    simp [hinv (cap + j) hjlen (Nat.le_add_right _ _)]
  have hsplit : List.countP (fun w => w.active) st.waves =
      List.countP (fun w => w.active) (st.waves.take cap) +
        List.countP (fun w => w.active) (st.waves.drop cap) := by
    conv_lhs => rw [← List.take_append_drop cap st.waves]
    rw [List.countP_append]
  rw [hsplit, hdrop, Nat.add_zero, min_comm]
  calc List.countP (fun w => w.active) (st.waves.take cap)
      ≤ (st.waves.take cap).length := List.countP_le_length _
    _ = min cap st.waves.length := List.length_take _ _

end Vantage

namespace Vantage

lemma triggerWaveAction_quality (cap : Nat) (now : ℚ) (rand : TriggerRand)
    (orbitCount : Nat) (st : WavesState) :
    ((triggerWaveAction cap now rand orbitCount st).1).quality = st.quality :=
  (triggerWaveAction_fixed_fields cap now rand orbitCount st).1

lemma triggerWaveAction_queue (cap : Nat) (now : ℚ) (rand : TriggerRand)
    (orbitCount : Nat) (st : WavesState) :
    ((triggerWaveAction cap now rand orbitCount st).1).triggerQueue =
      st.triggerQueue :=
  (triggerWaveAction_fixed_fields cap now rand orbitCount st).2.1

lemma triggerWaveAction_hasFired (cap : Nat) (now : ℚ) (rand : TriggerRand)
    (orbitCount : Nat) (st : WavesState) :
    ((triggerWaveAction cap now rand orbitCount st).1).hasFiredIntroWave =
      st.hasFiredIntroWave :=
  (triggerWaveAction_fixed_fields cap now rand orbitCount st).2.2.1

lemma triggerWaveAction_captured (cap : Nat) (now : ℚ) (rand : TriggerRand)
    (orbitCount : Nat) (st : WavesState) :
    ((triggerWaveAction cap now rand orbitCount st).1
      ).capturedTransmissionCacheVersion =
        st.capturedTransmissionCacheVersion :=
  (triggerWaveAction_fixed_fields cap now rand orbitCount st).2.2.2

lemma frameCapture_quality (cl : Bool) (st : WavesState) :
    (frameCapture cl st).quality = st.quality :=
  (frameCapture_waves cl st).2.1

lemma frameCapture_cacheVersion (cl : Bool) (st : WavesState) :
    (frameCapture cl st).transmissionCacheVersion =
      st.transmissionCacheVersion :=
  (frameCapture_waves cl st).2.2.2.2.2

lemma handleWaveComplete_fixed (id : Nat) (st : WavesState) :
    (handleWaveComplete id st).quality = st.quality ∧
    (handleWaveComplete id st).triggerQueue = st.triggerQueue ∧
    (handleWaveComplete id st).hasFiredIntroWave = st.hasFiredIntroWave ∧
    (handleWaveComplete id st).transmissionCacheVersion =
      st.transmissionCacheVersion ∧
    (handleWaveComplete id st).capturedTransmissionCacheVersion =
      st.capturedTransmissionCacheVersion := by
  simp only [handleWaveComplete]
  cases st.waves.findIdx? (fun w => w.id == id) with
  | none => exact ⟨rfl, rfl, rfl, rfl, rfl⟩
  | some i =>
    dsimp only
    cases st.waves.get? i with
    | none => exact ⟨rfl, rfl, rfl, rfl, rfl⟩
    | some w =>
      dsimp only
      split_ifs <;> exact ⟨rfl, rfl, rfl, rfl, rfl⟩

lemma handleVisibilityChange_fixed (v : Bool) (st : WavesState) :
    (handleVisibilityChange v st).waves = st.waves ∧
    (handleVisibilityChange v st).quality = st.quality ∧
    (handleVisibilityChange v st).activeWavesCount = st.activeWavesCount ∧
    (handleVisibilityChange v st).capturedTransmissionCacheVersion =
      st.capturedTransmissionCacheVersion := by
  unfold handleVisibilityChange
  split_ifs <;> exact ⟨rfl, rfl, rfl, rfl⟩

lemma waveStep_frame_quality (maxWaves orbitCount : Nat) (st : WavesState)
    (now : ℚ) (cl : Bool) (r r2 : TriggerRand) :
    (waveStep maxWaves orbitCount st (.frame now cl r r2)).quality =
      st.quality := by
  simp only [waveStep]
  split_ifs <;>
    simp only [triggerWaveAction_quality, frameCapture_quality]

lemma waveStep_frame_inv (maxWaves orbitCount : Nat) (st : WavesState)
    (now : ℚ) (cl : Bool) (r r2 : TriggerRand)
    (hinv : ActiveWithinCap (maxActiveWaves maxWaves st.quality) st.waves) :
    ActiveWithinCap (maxActiveWaves maxWaves st.quality)
      (waveStep maxWaves orbitCount st (.frame now cl r r2)).waves := by
  have h1 : ActiveWithinCap (maxActiveWaves maxWaves st.quality)
      (frameCapture cl st).waves := by
    rw [(frameCapture_waves cl st).1]
    exact hinv
  simp only [waveStep]
  split_ifs with htq hi hi'
  · exact triggerWaveAction_inv _ now r2 orbitCount _
      (triggerWaveAction_inv _ now r orbitCount _ h1)
  · exact triggerWaveAction_inv _ now r orbitCount _ h1
  · exact triggerWaveAction_inv _ now r2 orbitCount _ h1
  · exact h1

end Vantage

namespace Vantage

lemma initWavesState_inv (mw q cap : Nat) :
    ActiveWithinCap cap (initWavesState mw q).waves := by
  intro i h _
  simp only [initWavesState, List.getElem_map, List.getElem_range]

/-- **C1**: every event of the wave subsystem preserves the invariant that
active slots sit below the quality-reduced cap
(`maxActiveWaves = maxWaves / max 2 (maxWaves-1) / max 1 (maxWaves-2)` at
quality 2/1/0); the `maxActiveWaves` effect immediately deactivates every
active slot at an index ≥ the new cap, restoring the invariant for any prior
state; under the invariant the number of active slots is at most
`min(poolSize, cap)`; and a trigger never touches any slot at an index
beyond the first `min(cap, poolSize)` ones it scans. -/
theorem wave_cap_invariant :
    (∀ (maxWaves orbitCount : Nat) (st : WavesState) (e : WaveEvent),
      ActiveWithinCap (maxActiveWaves maxWaves st.quality) st.waves →
      ActiveWithinCap
        (maxActiveWaves maxWaves (waveStep maxWaves orbitCount st e).quality)
        (waveStep maxWaves orbitCount st e).waves)
    ∧ (∀ (cap : Nat) (st : WavesState),
        ActiveWithinCap cap (applyMaxActiveWavesEffect cap st).waves)
    ∧ (∀ (cap : Nat) (st : WavesState), ActiveWithinCap cap st.waves →
        countActive st ≤ min st.waves.length cap)
    ∧ (∀ (cap : Nat) (now : ℚ) (rand : TriggerRand) (orbitCount : Nat)
        (st : WavesState),
        (((triggerWaveAction cap now rand orbitCount st).1).waves.drop
            (min cap st.waves.length))
          = st.waves.drop (min cap st.waves.length)) := by
  refine ⟨?_, applyMaxActiveWavesEffect_inv, countActive_le, ?_⟩
  · intro maxWaves orbitCount st e hinv
    cases e with
    | pointerDown => exact hinv
    | complete id =>
      show ActiveWithinCap
        (maxActiveWaves maxWaves (handleWaveComplete id st).quality)
        (handleWaveComplete id st).waves
      rw [(handleWaveComplete_fixed id st).1]
      exact handleWaveComplete_inv _ id st hinv
    | qualityChange q =>
      show ActiveWithinCap
        (maxActiveWaves maxWaves
          (applyMaxActiveWavesEffect (maxActiveWaves maxWaves q)
            (qualityCacheEffect { st with quality := q })).quality)
        (applyMaxActiveWavesEffect (maxActiveWaves maxWaves q)
          (qualityCacheEffect { st with quality := q })).waves
      rw [(applyMaxActiveWavesEffect_quality _ _).1]
      exact applyMaxActiveWavesEffect_inv _ _
    | visibility v =>
      show ActiveWithinCap
        (maxActiveWaves maxWaves (handleVisibilityChange v st).quality)
        (handleVisibilityChange v st).waves
      rw [(handleVisibilityChange_fixed v st).2.1,
        (handleVisibilityChange_fixed v st).1]
      exact hinv
    | frame now cl r r2 =>
      rw [waveStep_frame_quality]
      exact waveStep_frame_inv maxWaves orbitCount st now cl r r2 hinv
  · intro cap now rand orbitCount st
    rcases triggerWaveAction_cases cap now rand orbitCount st with
      ⟨heq, -⟩ | ⟨k, hk, hkcap, ha, heq⟩
    · rw [heq]
    · rw [heq]
      dsimp only
      rw [List.drop_set, if_pos hkcap]

/-- Witness for `wave_cap_invariant`: the freshly mounted 2-slot pool at cap
1 has 0 active slots, within the bound. -/
theorem wave_cap_invariant_witness :
    countActive (initWavesState 2 0) ≤ min (initWavesState 2 0).waves.length 1 :=
  wave_cap_invariant.2.2.1 1 (initWavesState 2 0) (initWavesState_inv 2 0 1)

end Vantage

namespace Vantage

/-- How one `triggerWaveAction` call treats the cache version and the active
count: a dropped trigger changes neither; a successful activation increments
the count and bumps the cache version exactly when it starts from the idle
state. -/
lemma triggerWaveAction_version (cap : Nat) (now : ℚ) (rand : TriggerRand)
    (orbitCount : Nat) (st : WavesState) :
    (((triggerWaveAction cap now rand orbitCount st).1
        ).transmissionCacheVersion = st.transmissionCacheVersion ∧
      ((triggerWaveAction cap now rand orbitCount st).1).activeWavesCount =
        st.activeWavesCount) ∨
    (st.activeWavesCount = 0 ∧
      ((triggerWaveAction cap now rand orbitCount st).1
        ).transmissionCacheVersion = st.transmissionCacheVersion + 1 ∧
      ((triggerWaveAction cap now rand orbitCount st).1).activeWavesCount =
        st.activeWavesCount + 1) ∨
    (0 < st.activeWavesCount ∧
      ((triggerWaveAction cap now rand orbitCount st).1
        ).transmissionCacheVersion = st.transmissionCacheVersion ∧
      ((triggerWaveAction cap now rand orbitCount st).1).activeWavesCount =
        st.activeWavesCount + 1) := by
  rcases triggerWaveAction_cases cap now rand orbitCount st with
    ⟨heq, -⟩ | ⟨k, hk, hkcap, ha, heq⟩
  · rw [heq]
    exact Or.inl ⟨rfl, rfl⟩
  · rw [heq]
    by_cases hc : 0 < st.activeWavesCount
    · refine Or.inr (Or.inr ⟨hc, ?_, rfl⟩)
      dsimp only
      rw [if_pos hc]
    · refine Or.inr (Or.inl ⟨by omega, ?_, rfl⟩)
      dsimp only
      rw [if_neg hc]

lemma waveStep_frame_captured (maxWaves orbitCount : Nat) (st : WavesState)
    (now : ℚ) (cl : Bool) (r r2 : TriggerRand) :
    (waveStep maxWaves orbitCount st (.frame now cl r r2)
      ).capturedTransmissionCacheVersion =
        (frameCapture cl st).capturedTransmissionCacheVersion := by
  simp only [waveStep]
  split_ifs <;> simp only [triggerWaveAction_captured]

lemma waveStep_frame_version (maxWaves orbitCount : Nat) (st : WavesState)
    (now : ℚ) (cl : Bool) (r r2 : TriggerRand) :
    (waveStep maxWaves orbitCount st (.frame now cl r r2)
        ).transmissionCacheVersion = st.transmissionCacheVersion ∨
    (st.activeWavesCount = 0 ∧
      (waveStep maxWaves orbitCount st (.frame now cl r r2)
        ).transmissionCacheVersion = st.transmissionCacheVersion + 1 ∧
      0 < (waveStep maxWaves orbitCount st (.frame now cl r r2)
        ).activeWavesCount) := by
  have hver := frameCapture_cacheVersion cl st
  have hcnt := (frameCapture_waves cl st).2.2.1
  simp only [waveStep]
  split_ifs with htq hi hi'
  · have hWv : ({ frameCapture cl st with triggerQueue := false }
        : WavesState).transmissionCacheVersion =
          st.transmissionCacheVersion := hver
    have hWc : ({ frameCapture cl st with triggerQueue := false }
        : WavesState).activeWavesCount = st.activeWavesCount := hcnt
    have h1 := triggerWaveAction_version (maxActiveWaves maxWaves st.quality)
      now r orbitCount { frameCapture cl st with triggerQueue := false }
    rw [hWv, hWc] at h1
    generalize hX : (triggerWaveAction (maxActiveWaves maxWaves st.quality)
      now r orbitCount
      { frameCapture cl st with triggerQueue := false }).1 = X at h1 ⊢
    have hZv : ({ X with hasFiredIntroWave := true }
        : WavesState).transmissionCacheVersion =
          X.transmissionCacheVersion := rfl
    have hZc : ({ X with hasFiredIntroWave := true }
        : WavesState).activeWavesCount = X.activeWavesCount := rfl
    have h2 := triggerWaveAction_version (maxActiveWaves maxWaves st.quality)
      now r2 orbitCount { X with hasFiredIntroWave := true }
    rw [hZv, hZc] at h2
    rcases h1 with ⟨hv1, hc1⟩ | ⟨h01, hv1, hc1⟩ | ⟨hp1, hv1, hc1⟩ <;>
      rcases h2 with ⟨hv2, hc2⟩ | ⟨h02, hv2, hc2⟩ | ⟨hp2, hv2, hc2⟩ <;>
      omega
  · have hWv : ({ frameCapture cl st with triggerQueue := false }
        : WavesState).transmissionCacheVersion =
          st.transmissionCacheVersion := hver
    have hWc : ({ frameCapture cl st with triggerQueue := false }
        : WavesState).activeWavesCount = st.activeWavesCount := hcnt
    have h1 := triggerWaveAction_version (maxActiveWaves maxWaves st.quality)
      now r orbitCount { frameCapture cl st with triggerQueue := false }
    rw [hWv, hWc] at h1
    dsimp only at h1 ⊢
    rcases h1 with ⟨hv1, hc1⟩ | ⟨h01, hv1, hc1⟩ | ⟨hp1, hv1, hc1⟩ <;> omega
  · have hWv : ({ frameCapture cl st with hasFiredIntroWave := true }
        : WavesState).transmissionCacheVersion =
          st.transmissionCacheVersion := hver
    have hWc : ({ frameCapture cl st with hasFiredIntroWave := true }
        : WavesState).activeWavesCount = st.activeWavesCount := hcnt
    have h1 := triggerWaveAction_version (maxActiveWaves maxWaves st.quality)
      now r2 orbitCount { frameCapture cl st with hasFiredIntroWave := true }
    rw [hWv, hWc] at h1
    dsimp only at h1 ⊢
    rcases h1 with ⟨hv1, hc1⟩ | ⟨h01, hv1, hc1⟩ | ⟨hp1, hv1, hc1⟩ <;> omega
  · left
    exact hver

end Vantage

namespace Vantage

/-- **C2**: `capturedTransmissionCacheVersion` is assigned only inside the
per-frame capture branch — any event that changes it is a frame with the
context not lost, at least one active wave, and a stale cache
(`hasCachedTransmissionFrame` unset or `capturedVersion ≠ cacheVersion`) —
and it is then set to the current cache version; `cacheVersion` is bumped by
exactly one on a quality/resolution change and on a visibility regain, never
by a pointer-down or a completion, and on a frame only on a zero-to-nonzero
active-wave transition; at the `triggerWaveAction` level the bump happens
exactly on a successful activation out of the idle state. -/
theorem shared_buffer_capture_once :
    (∀ (maxWaves orbitCount : Nat) (st : WavesState) (e : WaveEvent),
      (waveStep maxWaves orbitCount st e).capturedTransmissionCacheVersion ≠
        st.capturedTransmissionCacheVersion →
      (∃ now r r2, e = .frame now false r r2) ∧
      0 < st.activeWavesCount ∧
      (st.hasCachedTransmissionFrame = false ∨
        st.capturedTransmissionCacheVersion ≠
          (st.transmissionCacheVersion : ℤ)) ∧
      (waveStep maxWaves orbitCount st e).capturedTransmissionCacheVersion =
        (st.transmissionCacheVersion : ℤ))
    ∧ (∀ (maxWaves orbitCount : Nat) (st : WavesState) (q : Nat),
        (waveStep maxWaves orbitCount st (.qualityChange q)
          ).transmissionCacheVersion = st.transmissionCacheVersion + 1)
    ∧ (∀ (maxWaves orbitCount : Nat) (st : WavesState) (v : Bool),
        (waveStep maxWaves orbitCount st (.visibility v)
          ).transmissionCacheVersion =
            if v then st.transmissionCacheVersion + 1
            else st.transmissionCacheVersion)
    ∧ (∀ (maxWaves orbitCount : Nat) (st : WavesState),
        (waveStep maxWaves orbitCount st .pointerDown
          ).transmissionCacheVersion = st.transmissionCacheVersion)
    ∧ (∀ (maxWaves orbitCount : Nat) (st : WavesState) (id : Nat),
        (waveStep maxWaves orbitCount st (.complete id)
          ).transmissionCacheVersion = st.transmissionCacheVersion)
    ∧ (∀ (maxWaves orbitCount : Nat) (st : WavesState) (now : ℚ) (cl : Bool)
        (r r2 : TriggerRand),
        (waveStep maxWaves orbitCount st (.frame now cl r r2)
            ).transmissionCacheVersion = st.transmissionCacheVersion ∨
        (st.activeWavesCount = 0 ∧
          (waveStep maxWaves orbitCount st (.frame now cl r r2)
            ).transmissionCacheVersion = st.transmissionCacheVersion + 1 ∧
          0 < (waveStep maxWaves orbitCount st (.frame now cl r r2)
            ).activeWavesCount))
    ∧ (∀ (cap : Nat) (now : ℚ) (rand : TriggerRand) (orbitCount : Nat)
        (st : WavesState),
        (((triggerWaveAction cap now rand orbitCount st).1
            ).transmissionCacheVersion = st.transmissionCacheVersion ∧
          ((triggerWaveAction cap now rand orbitCount st).1).activeWavesCount =
            st.activeWavesCount) ∨
        (st.activeWavesCount = 0 ∧
          ((triggerWaveAction cap now rand orbitCount st).1
            ).transmissionCacheVersion = st.transmissionCacheVersion + 1 ∧
          ((triggerWaveAction cap now rand orbitCount st).1).activeWavesCount =
            st.activeWavesCount + 1) ∨
        (0 < st.activeWavesCount ∧
          ((triggerWaveAction cap now rand orbitCount st).1
            ).transmissionCacheVersion = st.transmissionCacheVersion ∧
          ((triggerWaveAction cap now rand orbitCount st).1).activeWavesCount =
            st.activeWavesCount + 1)) := by
  refine ⟨?_, fun mw oc st q => rfl, ?_, fun mw oc st => rfl, ?_,
    waveStep_frame_version, triggerWaveAction_version⟩
  · intro maxWaves orbitCount st e hne
    cases e with
    | pointerDown => exact absurd rfl hne
    | complete id =>
      exact absurd (handleWaveComplete_fixed id st).2.2.2.2 hne
    | qualityChange q => exact absurd rfl hne
    | visibility v =>
      exact absurd (handleVisibilityChange_fixed v st).2.2.2 hne
    | frame now cl r r2 =>
      rw [waveStep_frame_captured] at hne
      rcases frameCapture_eq cl st with h | ⟨hc0, hcl, hstale, heq⟩ |
        ⟨-, -, heq⟩
      · rw [h] at hne
        exact absurd rfl hne
      · subst hcl
        refine ⟨⟨now, r, r2, rfl⟩, hc0, hstale, ?_⟩
        rw [waveStep_frame_captured, heq]
      · rw [heq] at hne
        exact absurd rfl hne
  · intro mw oc st v
    simp only [waveStep, handleVisibilityChange]
    cases v with
    | true => simp
    | false => simp
  · intro mw oc st id
    exact (handleWaveComplete_fixed id st).2.2.2.1

end Vantage

namespace Vantage

/-- Witness for `shared_buffer_capture_once`: a frame with one active wave
and a stale cache records the current cache version. -/
theorem shared_buffer_capture_once_witness :
    (waveStep 1 1
        { quality := 0
          waves := [{ id := 0, active := true, startTime := 0, orbitIndex := 0 }]
          activeWavesCount := 1
          lastOrbitIndex := 0
          lastActiveWaveId := some 0
          transmissionCacheVersion := 1
          hasCachedTransmissionFrame := false
          capturedTransmissionCacheVersion := -1
          triggerQueue := false
          hasFiredIntroWave := true }
        (.frame 0 false ⟨[], 0⟩ ⟨[], 0⟩)).capturedTransmissionCacheVersion =
      ((1 : ℕ) : ℤ) :=
  (shared_buffer_capture_once.1 1 1 _ _ (by
    rw [waveStep_frame_captured]
    norm_num [frameCapture])).2.2.2

end Vantage

namespace Vantage

lemma triggerWaveAction_full (cap : Nat) (now : ℚ) (rand : TriggerRand)
    (orbitCount : Nat) (st : WavesState)
    (h : ∀ w ∈ st.waves.take (min cap st.waves.length), w.active = true) :
    triggerWaveAction cap now rand orbitCount st = (st, false) := by
  have hnone : findAvailableWaveIndex st.waves (min cap st.waves.length)
      = none := by
    unfold findAvailableWaveIndex
    rw [List.findIdx?_eq_none_iff]
    intro x hx
    simp [h x hx]
  simp only [triggerWaveAction, hnone]

lemma triggerWaveAction_countActive (cap : Nat) (now : ℚ)
    (rand : TriggerRand) (orbitCount : Nat) (st : WavesState) :
    countActive (triggerWaveAction cap now rand orbitCount st).1 =
        countActive st ∨
    countActive (triggerWaveAction cap now rand orbitCount st).1 =
        countActive st + 1 := by
  rcases triggerWaveAction_cases cap now rand orbitCount st with
    ⟨heq, -⟩ | ⟨k, hk, hkcap, ha, heq⟩
  · rw [heq]
    exact Or.inl rfl
  · rw [heq]
    right
    unfold countActive
    dsimp only
    rw [List.countP_set _ _ _ _ hk]
    simp [ha]

end Vantage

namespace Vantage

/-- **C8**: when every slot among the first `min(cap, poolSize)` ones is
already active, a trigger request returns the state untouched (silently
dropped, no queueing); repeated pointer-downs collapse into one boolean
flag, and with the intro wave already fired a frame performs at most one
activation; in particular, starting from a fresh 2-slot pool at cap 2 with a
single orbit, two triggers succeed, the pool then has exactly 2 active
slots, and the third trigger is dropped. -/
theorem trigger_drop_when_full :
    (∀ (cap : Nat) (now : ℚ) (rand : TriggerRand) (orbitCount : Nat)
        (st : WavesState),
      (∀ w ∈ st.waves.take (min cap st.waves.length), w.active = true) →
      triggerWaveAction cap now rand orbitCount st = (st, false))
    ∧ (∀ (maxWaves orbitCount : Nat) (st : WavesState),
        waveStep maxWaves orbitCount
            (waveStep maxWaves orbitCount st .pointerDown) .pointerDown
          = waveStep maxWaves orbitCount st .pointerDown)
    ∧ (∀ (maxWaves orbitCount : Nat) (st : WavesState) (now : ℚ) (cl : Bool)
        (r r2 : TriggerRand), st.hasFiredIntroWave = true →
        countActive (waveStep maxWaves orbitCount st (.frame now cl r r2))
          ≤ countActive st + 1)
    ∧ ((triggerWaveAction 2 0 ⟨[0], 0⟩ 1 (initWavesState 2 2)).2 = true ∧
        (triggerWaveAction 2 0 ⟨[0], 0⟩ 1
          (triggerWaveAction 2 0 ⟨[0], 0⟩ 1 (initWavesState 2 2)).1).2
          = true ∧
        countActive (triggerWaveAction 2 0 ⟨[0], 0⟩ 1
          (triggerWaveAction 2 0 ⟨[0], 0⟩ 1 (initWavesState 2 2)).1).1 = 2 ∧
        triggerWaveAction 2 0 ⟨[0], 0⟩ 1
            (triggerWaveAction 2 0 ⟨[0], 0⟩ 1
              (triggerWaveAction 2 0 ⟨[0], 0⟩ 1 (initWavesState 2 2)).1).1
          = ((triggerWaveAction 2 0 ⟨[0], 0⟩ 1
              (triggerWaveAction 2 0 ⟨[0], 0⟩ 1
                (initWavesState 2 2)).1).1, false)) := by
  refine ⟨triggerWaveAction_full, fun mw oc st => rfl, ?_, ?_, ?_, ?_, ?_⟩
  · intro maxWaves orbitCount st now cl r r2 hf
    have hfq : (frameCapture cl st).hasFiredIntroWave = st.hasFiredIntroWave :=
      (frameCapture_waves cl st).2.2.2.2.1
    have hcActive : countActive
        ({ frameCapture cl st with triggerQueue := false } : WavesState) =
          countActive st := by
      unfold countActive
      exact congrArg _ ((frameCapture_waves cl st).1)
    have hcPlain : countActive (frameCapture cl st) = countActive st := by
      unfold countActive
      exact congrArg _ ((frameCapture_waves cl st).1)
    simp only [waveStep]
    split_ifs with htq hi hi'
    · exfalso
      have h2 := (triggerWaveAction_hasFired (maxActiveWaves maxWaves st.quality)
        now r orbitCount
        { frameCapture cl st with triggerQueue := false }).trans hfq
      rw [h2] at hi
      rw [hf] at hi
      exact Bool.true_eq_false ▸ hi.2 |> (by simp : ¬(true = false))
    · rcases triggerWaveAction_countActive (maxActiveWaves maxWaves st.quality)
          now r orbitCount { frameCapture cl st with triggerQueue := false }
        with h | h <;> rw [h, hcActive] <;> omega
    · exfalso
      rw [hfq, hf] at hi'
      exact (by simp : ¬(true = false)) hi'.2
    · rw [hcPlain]
      omega
  · decide
  · decide
  · decide
  · exact triggerWaveAction_full 2 0 ⟨[0], 0⟩ 1 _ (by decide)

end Vantage

namespace Vantage

/-- Witness for `trigger_drop_when_full`: a fully active 1-slot pool drops
the trigger and the state is untouched. -/
theorem trigger_drop_when_full_witness :
    triggerWaveAction 1 0 ⟨[0], 0⟩ 1
        { quality := 0
          waves := [{ id := 0, active := true, startTime := 0, orbitIndex := 0 }]
          activeWavesCount := 1
          lastOrbitIndex := 0
          lastActiveWaveId := some 0
          transmissionCacheVersion := 1
          hasCachedTransmissionFrame := true
          capturedTransmissionCacheVersion := 1
          triggerQueue := false
          hasFiredIntroWave := true }
      = ({ quality := 0
           waves := [{ id := 0, active := true, startTime := 0, orbitIndex := 0 }]
           activeWavesCount := 1
           lastOrbitIndex := 0
           lastActiveWaveId := some 0
           transmissionCacheVersion := 1
           hasCachedTransmissionFrame := true
           capturedTransmissionCacheVersion := 1
           triggerQueue := false
           hasFiredIntroWave := true }, false) :=
  trigger_drop_when_full.1 1 0 ⟨[0], 0⟩ 1 _ (by decide)

end Vantage

namespace Vantage

lemma handleVisibilityChange_flags (v : Bool) (st : WavesState) :
    (handleVisibilityChange v st).triggerQueue = st.triggerQueue ∧
    (handleVisibilityChange v st).hasFiredIntroWave = st.hasFiredIntroWave := by
  unfold handleVisibilityChange
  split_ifs <;> exact ⟨rfl, rfl⟩

/-- **C10**: in the layout-preset variant, the manual-trigger lock invariant
— the manual unlock implies the intro wave has fired, and no trigger is
queued before the intro wave fires — holds initially and is preserved by
every event; a pointer-down while the lock is held, or while the logo is
visible (opacity above `LOGO_VISIBILITY_EPSILON`), is a strict no-op; and
before the intro wave has fired, a frame below the intro deadline never
mutates any wave slot, so no user-triggered activation can precede the
intro wave. -/
theorem manual_trigger_lock :
    (∀ (mw q : Nat), VariantLockInv (initVariantState mw q))
    ∧ (∀ (mw oc : Nat) (st : VariantState) (e : VariantEvent),
        VariantLockInv st → VariantLockInv (variantStep mw oc st e))
    ∧ (∀ (mw oc : Nat) (st : VariantState),
        st.isManualWaveTriggerUnlocked = false →
        variantStep mw oc st .pointerDown = st)
    ∧ (∀ (mw oc : Nat) (st : VariantState),
        st.isLogoVisible = true →
        variantStep mw oc st .pointerDown = st)
    ∧ (∀ (mw oc : Nat) (st : VariantState) (now : ℚ) (cl : Bool)
        (r r2 : TriggerRand) (lo : ℚ),
        VariantLockInv st → st.core.hasFiredIntroWave = false →
        ¬INTRO_DURATION < now →
        (variantStep mw oc st (.frame now cl r r2 lo)).core.waves =
          st.core.waves) := by
  refine ⟨?_, ?_, ?_, ?_, ?_⟩
  · intro mw q
    exact ⟨fun h => by simp [initVariantState] at h, fun _ => rfl⟩
  · intro mw oc st e hinv
    cases e with
    | pointerDown =>
      simp only [variantStep, variantPointerDown]
      split_ifs with h1 h2
      · exact hinv
      · exact hinv
      · have hu : st.isManualWaveTriggerUnlocked = true := by
          simpa using h1
        refine ⟨fun _ => hinv.1 hu, fun hnf => ?_⟩
        exfalso
        have := hinv.1 hu
        dsimp only at hnf
        rw [this] at hnf
        exact absurd hnf (by simp)
    | complete id =>
      refine ⟨fun hu => ?_, fun hnf => ?_⟩
      · exact ((handleWaveComplete_fixed id st.core).2.2.1).trans (hinv.1 hu)
      · have hf : st.core.hasFiredIntroWave = false := by
          rw [← (handleWaveComplete_fixed id st.core).2.2.1]
          exact hnf
        exact ((handleWaveComplete_fixed id st.core).2.1).trans (hinv.2 hf)
    | qualityChange q =>
      have hF : (applyMaxActiveWavesEffect (maxActiveWaves mw q)
          (qualityCacheEffect { st.core with quality := q })
            ).hasFiredIntroWave = st.core.hasFiredIntroWave :=
        (applyMaxActiveWavesEffect_quality _ _).2.2
      have hQ : (applyMaxActiveWavesEffect (maxActiveWaves mw q)
          (qualityCacheEffect { st.core with quality := q })
            ).triggerQueue = st.core.triggerQueue :=
        (applyMaxActiveWavesEffect_quality _ _).2.1
      refine ⟨fun hu => hF.trans (hinv.1 hu), fun hnf => ?_⟩
      · have hf : st.core.hasFiredIntroWave = false := by
          rw [← hF]
          exact hnf
        exact hQ.trans (hinv.2 hf)
    | visibility v =>
      have hF := (handleVisibilityChange_flags v st.core).2
      have hQ := (handleVisibilityChange_flags v st.core).1
      refine ⟨fun hu => hF.trans (hinv.1 hu), fun hnf => ?_⟩
      have hf : st.core.hasFiredIntroWave = false := by
        rw [← hF]
        exact hnf
      exact hQ.trans (hinv.2 hf)
    | frame now cl r r2 lo =>
      have hFc1 : (frameCapture cl st.core).hasFiredIntroWave =
          st.core.hasFiredIntroWave :=
        (frameCapture_waves cl st.core).2.2.2.2.1
      have hQc1 : (frameCapture cl st.core).triggerQueue =
          st.core.triggerQueue :=
        (frameCapture_waves cl st.core).2.2.2.1
      have hF2 : ((triggerWaveAction (maxActiveWaves mw st.core.quality) now r
          oc { frameCapture cl st.core with triggerQueue := false }).1
            ).hasFiredIntroWave = st.core.hasFiredIntroWave :=
        (triggerWaveAction_hasFired _ now r oc _).trans hFc1
      have hQ2 : ((triggerWaveAction (maxActiveWaves mw st.core.quality) now r
          oc { frameCapture cl st.core with triggerQueue := false }).1
            ).triggerQueue = false :=
        triggerWaveAction_queue _ now r oc _
      simp only [variantStep]
      split_ifs with htq hintro hres hintro' hres'
      · exact ⟨fun _ => rfl, fun hnf => absurd hnf (by simp)⟩
      · refine ⟨fun hu => ?_, fun _ => ?_⟩
        · exfalso
          have h1 := hintro.2
          rw [hF2] at h1
          rw [hinv.1 hu] at h1
          exact absurd h1 (by simp)
        · exact (triggerWaveAction_queue _ now r2 oc _).trans hQ2
      · refine ⟨fun hu => hF2.trans (hinv.1 hu), fun _ => hQ2⟩
      · exact ⟨fun _ => rfl, fun hnf => absurd hnf (by simp)⟩
      · refine ⟨fun hu => ?_, fun _ => ?_⟩
        · exfalso
          have h1 := hintro'.2
          rw [hFc1] at h1
          rw [hinv.1 hu] at h1
          exact absurd h1 (by simp)
        · have h1 := hintro'.2
          rw [hFc1] at h1
          exact (triggerWaveAction_queue _ now r2 oc _).trans
            (hQc1.trans (hinv.2 h1))
      · refine ⟨fun hu => hFc1.trans (hinv.1 hu), fun hnf => ?_⟩
        have hf : st.core.hasFiredIntroWave = false := by
          rw [← hFc1]
          exact hnf
        exact hQc1.trans (hinv.2 hf)
  · intro mw oc st h
    simp only [variantStep, variantPointerDown]
    rw [if_pos (by simp [h])]
  · intro mw oc st h
    simp only [variantStep, variantPointerDown, h, if_true]
    split_ifs <;> rfl
  · intro mw oc st now cl r r2 lo hinv hnf hnow
    have hq : (frameCapture cl st.core).triggerQueue = false :=
      ((frameCapture_waves cl st.core).2.2.2.1).trans (hinv.2 hnf)
    simp only [variantStep]
    rw [if_neg (fun h => hnow h.1)]
    rw [if_neg (show ¬(frameCapture cl st.core).triggerQueue = true by
      simp [hq])]
    exact (frameCapture_waves cl st.core).1

/-- Witness for `manual_trigger_lock`: the freshly initialised variant state
has the manual trigger locked, and a pointer-down on it is a strict no-op. -/
theorem manual_trigger_lock_witness :
    (initVariantState 2 2).isManualWaveTriggerUnlocked = false ∧
    variantStep 2 3 (initVariantState 2 2) .pointerDown = initVariantState 2 2 :=
  ⟨rfl, manual_trigger_lock.2.2.1 2 3 (initVariantState 2 2) rfl⟩

end Vantage

namespace Vantage

lemma range_mul_flatMap {α : Type} (g : Nat → List α) (n m : Nat) :
    (List.range (n * m)).flatMap g =
      (List.range n).flatMap
        (fun i => (List.range m).flatMap (fun j => g (i * m + j))) := by
  induction n with
  | zero => simp
  | succ n ih =>
    rw [Nat.succ_mul, List.range_add, List.flatMap_append, ih, List.range_succ,
      List.flatMap_append]
    simp [List.flatMap_map]

lemma flatMap_const_length {α : Type} (F : Nat → List α) (L n : Nat)
    (hF : ∀ k, (F k).length = L) :
    ((List.range n).flatMap F).length = n * L := by
  induction n with
  | zero => simp
  | succ n ih =>
    rw [List.range_succ, List.flatMap_append, List.length_append, ih]
    simp [hF, Nat.succ_mul]

lemma flatMap_slice {α : Type} (F : Nat → List α) (L : Nat)
    (hF : ∀ k, (F k).length = L) :
    ∀ (n i : Nat), i < n →
      ((((List.range n).flatMap F).drop (i * L)).take L) = F i := by
  intro n
  induction n with
  | zero => intro i hi; omega
  | succ n ih =>
    intro i hi
    rw [List.range_succ, List.flatMap_append]
    simp only [List.flatMap_cons, List.flatMap_nil, List.append_nil]
    by_cases h : i < n
    · rw [List.drop_append_of_le_length, List.take_append_of_le_length]
      · exact ih i h
      · rw [List.length_drop, flatMap_const_length F L n hF]
        have hmul : (i + 1) * L ≤ n * L := Nat.mul_le_mul_right L h
        rw [Nat.add_mul, Nat.one_mul] at hmul
        omega
      · rw [flatMap_const_length F L n hF]
        exact Nat.mul_le_mul_right L (Nat.le_of_lt h)
    · have hi' : i = n := by omega
      subst hi'
      rw [show i * L = ((List.range i).flatMap F).length from
        (flatMap_const_length F L i hF).symm]
      rw [List.drop_left]
      exact List.take_of_length_le (Nat.le_of_eq (hF i))

lemma flatMap_congr_fun {α β : Type} (l : List α) (f g : α → List β)
    (h : ∀ a ∈ l, f a = g a) : l.flatMap f = l.flatMap g := by
  induction l with
  | nil => rfl
  | cons x xs ih =>
    simp only [List.flatMap_cons]
    rw [h x (List.mem_cons_self x xs),
      ih (fun a ha => h a (List.mem_cons_of_mem x ha))]

lemma idx_div (i j m : Nat) (hj : j < m) : (i * m + j) / m = i := by
  rw [Nat.mul_comm, Nat.mul_add_div (by omega), Nat.div_eq_of_lt hj]
  omega

lemma idx_mod (i j m : Nat) (hj : j < m) : (i * m + j) % m = j := by
  rw [Nat.mul_comm, Nat.mul_add_mod, Nat.mod_eq_of_lt hj]

/-- **C9**: the GPU compute path and the CPU fallback are observationally
equivalent — for every configuration (any orbit count, segment count and
orbit parameter list) and any shared trigonometric implementation, slicing
the GPU readback buffer per orbit yields exactly the per-orbit buffers the
CPU fallback computes, point for point. -/
theorem gpu_cpu_equiv (tri : Trig) (cfg : GPUComputeConfig) :
    computeOnGPU tri cfg = computeOnCPU tri cfg := by
  simp only [computeOnGPU, computeOnCPU, gpuFlatOutput]
  refine List.map_congr_left (fun i hi => ?_)
  have hin : i < cfg.orbitCount := List.mem_range.mp hi
  rw [range_mul_flatMap
    (fun idx => [tri.cosF (gpuThetaAt tri cfg idx) * gpuRadiusXAt cfg idx, 0,
      tri.sinF (gpuThetaAt tri cfg idx) * gpuRadiusZAt cfg idx])
    cfg.orbitCount (cfg.segmentsPerOrbit + 1)]
  rw [Nat.mul_assoc]
  rw [flatMap_slice
    (fun k => (List.range (cfg.segmentsPerOrbit + 1)).flatMap
      (fun j =>
        [tri.cosF (gpuThetaAt tri cfg (k * (cfg.segmentsPerOrbit + 1) + j)) *
           gpuRadiusXAt cfg (k * (cfg.segmentsPerOrbit + 1) + j), 0,
         tri.sinF (gpuThetaAt tri cfg (k * (cfg.segmentsPerOrbit + 1) + j)) *
           gpuRadiusZAt cfg (k * (cfg.segmentsPerOrbit + 1) + j)]))
    ((cfg.segmentsPerOrbit + 1) * 3)
    (fun k => by exact flatMap_const_length _ 3 _ (fun _ => rfl)) cfg.orbitCount i hin]
  refine flatMap_congr_fun _ _ _ (fun j hj => ?_)
  have hjm : j < cfg.segmentsPerOrbit + 1 := List.mem_range.mp hj
  simp only [gpuThetaAt, gpuRadiusXAt, gpuRadiusZAt,
    idx_div i j (cfg.segmentsPerOrbit + 1) hjm,
    idx_mod i j (cfg.segmentsPerOrbit + 1) hjm]

end Vantage
